import Mathlib

/-
Shallow embedding of src/spi_nor_flash.c (SNANDer-VCC): chip catalog,
identification (chip_prob), the chunked write / read / erase loops, and the
status-polling loop (snor_wait_ready).  Machine integers are modelled as Nat
with explicit reduction modulo 2^w where the C code can wrap (the unsigned
long remaining-length counter in snor_erase, the u32 address register in
snor_read, the u32/u24 address bytes sent by snor_erase_sector).  Bus
transactions are modelled by explicit command traces; the transport and the
status register are oracles supplied as functions.  Status-register polls are
not part of the command alphabet: every claim below is about commands other
than the repeated status reads.
-/

/-- Mirrors `struct chip_info` (spi_nor_flash.c:80).  The C `float vcc_min /
vcc_max` fields are carried as exact centivolt integers (2.70 -> 270); no
claim computes with them. -/
structure ChipInfo where
  name : String
  id : Nat
  jedec_id : Nat
  sector_size : Nat
  n_sectors : Nat
  addr4b : Bool
  vcc_min : Nat
  vcc_max : Nat
deriving DecidableEq

/-- Rows 0..49 of chips_data (split only to keep elaboration fast). -/
def chips_data_part0 : List ChipInfo := [
  ⟨"FL016AIF", 0x01, 0x02140000, 64 * 1024, 32, false, 270, 360⟩,
  ⟨"S25FL016P", 0x01, 0x02144d00, 64 * 1024, 32, false, 270, 360⟩,
  ⟨"S25FL032P", 0x01, 0x02154d00, 64 * 1024, 64, false, 270, 360⟩,
  ⟨"FL064AIF", 0x01, 0x02160000, 64 * 1024, 128, false, 270, 360⟩,
  ⟨"S25FL064P", 0x01, 0x02164d00, 64 * 1024, 128, false, 270, 360⟩,
  ⟨"S25FL256S", 0x01, 0x02194d01, 64 * 1024, 512, true, 270, 360⟩,
  ⟨"S25FL128P", 0x01, 0x20180301, 64 * 1024, 256, false, 270, 360⟩,
  ⟨"S25FL129P", 0x01, 0x20184d01, 64 * 1024, 256, false, 270, 360⟩,
  ⟨"S25FL116K", 0x01, 0x40150140, 64 * 1024, 32, false, 270, 360⟩,
  ⟨"S25FL132K", 0x01, 0x40160140, 64 * 1024, 64, false, 270, 360⟩,
  ⟨"S25FL164K", 0x01, 0x40170140, 64 * 1024, 128, false, 270, 360⟩,
  ⟨"XT25F02E", 0x0b, 0x40120000, 64 * 1024, 4, false, 270, 360⟩,
  ⟨"XT25F04D", 0x0b, 0x40130000, 64 * 1024, 8, false, 270, 360⟩,
  ⟨"XT25F08B", 0x0b, 0x40140000, 64 * 1024, 16, false, 270, 360⟩,
  ⟨"XT25F16B", 0x0b, 0x40150000, 64 * 1024, 32, false, 270, 360⟩,
  ⟨"XT25F32F", 0x0b, 0x40160000, 64 * 1024, 64, false, 270, 360⟩,
  ⟨"XT25F64F", 0x0b, 0x40170000, 64 * 1024, 128, false, 270, 360⟩,
  ⟨"XT25F128F", 0x0b, 0x40180000, 64 * 1024, 256, false, 270, 360⟩,
  ⟨"XT25W02E", 0x0b, 0x60120000, 64 * 1024, 4, false, 165, 360⟩,
  ⟨"XT25W04D", 0x0b, 0x60130000, 64 * 1024, 8, false, 165, 360⟩,
  ⟨"XT25Q08D", 0x0b, 0x60140000, 64 * 1024, 16, false, 165, 200⟩,
  ⟨"XT25Q16D", 0x0b, 0x60150000, 64 * 1024, 32, false, 165, 200⟩,
  ⟨"XT25Q64D", 0x0b, 0x60170000, 64 * 1024, 128, false, 165, 200⟩,
  ⟨"XT25F128D", 0x0b, 0x60180000, 64 * 1024, 256, false, 165, 200⟩,
  ⟨"EN25B10T", 0x1c, 0x20110000, 64 * 1024, 2, false, 270, 360⟩,
  ⟨"EN25B20T", 0x1c, 0x20120000, 64 * 1024, 4, false, 270, 360⟩,
  ⟨"EN25B40T", 0x1c, 0x20130000, 64 * 1024, 8, false, 270, 360⟩,
  ⟨"EN25B80T", 0x1c, 0x20140000, 64 * 1024, 16, false, 270, 360⟩,
  ⟨"EN25B16T", 0x1c, 0x20150000, 64 * 1024, 32, false, 270, 360⟩,
  ⟨"EN25B32T", 0x1c, 0x20160000, 64 * 1024, 64, false, 270, 360⟩,
  ⟨"EN25B64T", 0x1c, 0x20170000, 64 * 1024, 128, false, 270, 360⟩,
  ⟨"EN25F64", 0x1c, 0x20171c20, 64 * 1024, 128, false, 270, 360⟩,
  ⟨"EN25Q40A", 0x1c, 0x30130000, 64 * 1024, 8, false, 270, 360⟩,
  ⟨"EN25Q80B", 0x1c, 0x30140000, 64 * 1024, 16, false, 270, 360⟩,
  ⟨"EN25Q16", 0x1c, 0x30151c30, 64 * 1024, 32, false, 270, 360⟩,
  ⟨"EN25Q32C", 0x1c, 0x30160000, 64 * 1024, 64, false, 270, 360⟩,
  ⟨"EN25Q64", 0x1c, 0x30170000, 64 * 1024, 128, false, 270, 360⟩,
  ⟨"EN25Q128", 0x1c, 0x30181c30, 64 * 1024, 256, false, 270, 360⟩,
  ⟨"EN25F10A", 0x1c, 0x31110000, 64 * 1024, 2, false, 270, 360⟩,
  ⟨"EN25F20A", 0x1c, 0x31120000, 64 * 1024, 4, false, 270, 360⟩,
  ⟨"EN25F40", 0x1c, 0x31130000, 64 * 1024, 8, false, 270, 360⟩,
  ⟨"EN25F80", 0x1c, 0x31140000, 64 * 1024, 16, false, 270, 360⟩,
  ⟨"EN25F16", 0x1c, 0x31151c31, 64 * 1024, 32, false, 270, 360⟩,
  ⟨"EN25F32", 0x1c, 0x31161c30, 64 * 1024, 64, false, 270, 360⟩,
  ⟨"EN25S10A", 0x1c, 0x38110000, 64 * 1024, 2, false, 165, 195⟩,
  ⟨"EN25S20A", 0x1c, 0x38120000, 64 * 1024, 4, false, 165, 195⟩,
  ⟨"EN25S40A", 0x1c, 0x38130000, 64 * 1024, 8, false, 165, 195⟩,
  ⟨"EN25S80B", 0x1c, 0x38140000, 64 * 1024, 16, false, 165, 195⟩,
  ⟨"EN25S16B", 0x1c, 0x38150000, 64 * 1024, 32, false, 165, 195⟩,
  ⟨"EN25S64A", 0x1c, 0x38170000, 64 * 1024, 128, false, 165, 195⟩
]

/-- Rows 50..99 of chips_data (split only to keep elaboration fast). -/
def chips_data_part1 : List ChipInfo := [
  ⟨"EN25QE32A", 0x1c, 0x41160000, 64 * 1024, 64, false, 270, 360⟩,
  ⟨"EN25E10A", 0x1c, 0x42110000, 64 * 1024, 2, false, 270, 360⟩,
  ⟨"EN25E40A", 0x1c, 0x42130000, 64 * 1024, 4, false, 270, 360⟩,
  ⟨"EN25SE16A", 0x1c, 0x48150000, 64 * 1024, 32, false, 165, 195⟩,
  ⟨"EN25SE32A", 0x1c, 0x48160000, 64 * 1024, 64, false, 165, 195⟩,
  ⟨"EN25T80", 0x1c, 0x51140000, 64 * 1024, 16, false, 270, 360⟩,
  ⟨"EN25QA32B", 0x1c, 0x60160000, 64 * 1024, 64, false, 270, 360⟩,
  ⟨"EN25QA64A", 0x1c, 0x60170000, 64 * 1024, 128, false, 270, 360⟩,
  ⟨"EN25QA128A", 0x1c, 0x60180000, 64 * 1024, 256, false, 270, 360⟩,
  ⟨"EN25QW16A", 0x1c, 0x61150000, 64 * 1024, 32, false, 270, 360⟩,
  ⟨"EN25QW32A", 0x1c, 0x61160000, 64 * 1024, 64, false, 270, 360⟩,
  ⟨"EN25QH16", 0x1c, 0x70151c70, 64 * 1024, 32, false, 270, 360⟩,
  ⟨"EN25QH32B", 0x1c, 0x70160000, 64 * 1024, 64, false, 270, 360⟩,
  ⟨"EN25QH64A", 0x1c, 0x70171c70, 64 * 1024, 128, false, 270, 360⟩,
  ⟨"EN25QH128A", 0x1c, 0x70181c70, 64 * 1024, 256, false, 270, 360⟩,
  ⟨"EN25Q256", 0x1c, 0x70191c70, 64 * 1024, 512, true, 270, 360⟩,
  ⟨"EN25QX64A", 0x1c, 0x71170000, 64 * 1024, 128, false, 270, 360⟩,
  ⟨"EN25QX128A", 0x1c, 0x71180000, 64 * 1024, 256, false, 270, 360⟩,
  ⟨"EN25QX256A", 0x1c, 0x71190000, 64 * 1024, 512, true, 270, 360⟩,
  ⟨"EN25QY256A", 0x1c, 0x73190000, 64 * 1024, 512, true, 270, 360⟩,
  ⟨"EN25SX64A", 0x1c, 0x78170000, 64 * 1024, 128, false, 165, 195⟩,
  ⟨"EN25SX128A", 0x1c, 0x78180000, 64 * 1024, 256, false, 165, 195⟩,
  ⟨"AT26DF161", 0x1f, 0x46000000, 64 * 1024, 32, false, 270, 360⟩,
  ⟨"AT25DF321", 0x1f, 0x47000000, 64 * 1024, 64, false, 270, 360⟩,
  ⟨"M25P10", 0x20, 0x20110000, 64 * 1024, 2, false, 230, 360⟩,
  ⟨"M25P20", 0x20, 0x20120000, 64 * 1024, 4, false, 230, 360⟩,
  ⟨"M25P40", 0x20, 0x20130000, 64 * 1024, 8, false, 230, 360⟩,
  ⟨"M25P80", 0x20, 0x20140000, 64 * 1024, 16, false, 270, 360⟩,
  ⟨"M25P016", 0x20, 0x20150000, 64 * 1024, 32, false, 270, 360⟩,
  ⟨"M25P32", 0x20, 0x20160000, 64 * 1024, 64, false, 270, 360⟩,
  ⟨"M25P64", 0x20, 0x20170000, 64 * 1024, 128, false, 270, 360⟩,
  ⟨"M25P128", 0x20, 0x20180000, 64 * 1024, 256, false, 270, 360⟩,
  ⟨"XM25QH10B", 0x20, 0x40110000, 64 * 1024, 2, false, 270, 360⟩,
  ⟨"XM25QH20B", 0x20, 0x40120000, 64 * 1024, 4, false, 270, 360⟩,
  ⟨"XM25QH40B", 0x20, 0x40130000, 64 * 1024, 8, false, 270, 360⟩,
  ⟨"XM25QH80B", 0x20, 0x40140000, 64 * 1024, 16, false, 270, 360⟩,
  ⟨"XM25QH16C", 0x20, 0x40150000, 64 * 1024, 32, false, 230, 360⟩,
  ⟨"XM25QH32B", 0x20, 0x40160000, 64 * 1024, 64, false, 270, 360⟩,
  ⟨"XM25QH64C", 0x20, 0x40170000, 64 * 1024, 128, false, 230, 360⟩,
  ⟨"XM25QH128C", 0x20, 0x40182070, 64 * 1024, 256, false, 230, 360⟩,
  ⟨"XM25QH256C", 0x20, 0x40190000, 64 * 1024, 512, true, 230, 360⟩,
  ⟨"XM25QH512C", 0x20, 0x40200000, 64 * 1024, 1024, true, 230, 360⟩,
  ⟨"XM25LU64C", 0x20, 0x41170000, 64 * 1024, 128, false, 165, 195⟩,
  ⟨"XM25LU128C", 0x20, 0x41180000, 64 * 1024, 256, false, 165, 195⟩,
  ⟨"XM25QU256C", 0x20, 0x41190000, 64 * 1024, 512, true, 165, 195⟩,
  ⟨"XM25QU512C", 0x20, 0x41200000, 64 * 1024, 1024, true, 165, 195⟩,
  ⟨"XM25QW16C", 0x20, 0x42150000, 64 * 1024, 32, false, 165, 360⟩,
  ⟨"XM25QW32C", 0x20, 0x42160000, 64 * 1024, 64, false, 165, 360⟩,
  ⟨"XM25QW64C", 0x20, 0x42170000, 64 * 1024, 128, false, 165, 360⟩,
  ⟨"XM25QW128C", 0x20, 0x42180000, 64 * 1024, 256, false, 165, 360⟩
]

/-- Rows 100..149 of chips_data (split only to keep elaboration fast). -/
def chips_data_part2 : List ChipInfo := [
  ⟨"XM25QW256C", 0x20, 0x42190000, 64 * 1024, 512, true, 165, 360⟩,
  ⟨"XM25QW512C", 0x20, 0x42200000, 64 * 1024, 1024, true, 165, 360⟩,
  ⟨"XM25QU41B", 0x20, 0x50130000, 64 * 1024, 8, false, 165, 195⟩,
  ⟨"XM25QU80B", 0x20, 0x50140000, 64 * 1024, 16, false, 165, 195⟩,
  ⟨"XM25QU16C", 0x20, 0x50150000, 64 * 1024, 32, false, 165, 195⟩,
  ⟨"XM25LU32C", 0x20, 0x50160000, 64 * 1024, 64, false, 165, 195⟩,
  ⟨"XM25QH32A", 0x20, 0x70160000, 64 * 1024, 64, false, 270, 360⟩,
  ⟨"XM25QH64A", 0x20, 0x70170000, 64 * 1024, 128, false, 270, 360⟩,
  ⟨"XM25QH128A", 0x20, 0x70182070, 64 * 1024, 256, false, 270, 360⟩,
  ⟨"N25Q032A", 0x20, 0xba160000, 64 * 1024, 64, false, 270, 360⟩,
  ⟨"N25Q064A", 0x20, 0xba170000, 64 * 1024, 128, false, 270, 360⟩,
  ⟨"MT25QL64AB", 0x20, 0xba170000, 64 * 1024, 128, false, 270, 360⟩,
  ⟨"N25Q128A", 0x20, 0xba180000, 64 * 1024, 256, false, 270, 360⟩,
  ⟨"MT25QL128AB", 0x20, 0xba180000, 64 * 1024, 256, false, 270, 360⟩,
  ⟨"N25Q256A", 0x20, 0xba190000, 64 * 1024, 512, true, 270, 360⟩,
  ⟨"MT25QL256AB", 0x20, 0xba190000, 64 * 1024, 512, true, 270, 360⟩,
  ⟨"MT25QL512AB", 0x20, 0xba200000, 64 * 1024, 1024, true, 270, 360⟩,
  ⟨"N25Q032A", 0x20, 0xbb160000, 64 * 1024, 64, false, 170, 200⟩,
  ⟨"N25Q064A", 0x20, 0xbb170000, 64 * 1024, 128, false, 170, 200⟩,
  ⟨"MT25QU64AB", 0x20, 0xbb170000, 64 * 1024, 128, false, 170, 200⟩,
  ⟨"N25Q128A", 0x20, 0xbb180000, 64 * 1024, 256, false, 170, 200⟩,
  ⟨"MT25QU128AB", 0x20, 0xbb180000, 64 * 1024, 256, false, 170, 200⟩,
  ⟨"MT25QU256AB", 0x20, 0xbb190000, 64 * 1024, 512, true, 170, 200⟩,
  ⟨"MT25QU512AB", 0x20, 0xbb200000, 64 * 1024, 1024, true, 170, 200⟩,
  ⟨"A25L10PU", 0x37, 0x20110000, 64 * 1024, 2, false, 270, 360⟩,
  ⟨"A25L20PU", 0x37, 0x20120000, 64 * 1024, 4, false, 270, 360⟩,
  ⟨"A25L40PU", 0x37, 0x20120000, 64 * 1024, 8, false, 270, 360⟩,
  ⟨"A25L80PU", 0x37, 0x20140000, 64 * 1024, 16, false, 270, 360⟩,
  ⟨"A25L16PU", 0x37, 0x20150000, 64 * 1024, 32, false, 270, 360⟩,
  ⟨"A25L10PT", 0x37, 0x20210000, 64 * 1024, 2, false, 270, 360⟩,
  ⟨"A25L20PT", 0x37, 0x20220000, 64 * 1024, 4, false, 270, 360⟩,
  ⟨"A25L40PT", 0x37, 0x20220000, 64 * 1024, 8, false, 270, 360⟩,
  ⟨"A25L80PT", 0x37, 0x20240000, 64 * 1024, 16, false, 270, 360⟩,
  ⟨"A25L16PT", 0x37, 0x20250000, 64 * 1024, 32, false, 270, 360⟩,
  ⟨"A25L010", 0x37, 0x30110000, 64 * 1024, 2, false, 270, 360⟩,
  ⟨"A25L020", 0x37, 0x30120000, 64 * 1024, 4, false, 270, 360⟩,
  ⟨"A25L040", 0x37, 0x30130000, 64 * 1024, 8, false, 270, 360⟩,
  ⟨"A25L040", 0x37, 0x30130000, 64 * 1024, 8, false, 270, 360⟩,
  ⟨"A25L080", 0x37, 0x30140000, 64 * 1024, 16, false, 270, 360⟩,
  ⟨"A25L016", 0x37, 0x30150000, 64 * 1024, 32, false, 270, 360⟩,
  ⟨"A25L032", 0x37, 0x30160000, 64 * 1024, 64, false, 270, 360⟩,
  ⟨"A25LQ080", 0x37, 0x40140000, 64 * 1024, 16, false, 270, 360⟩,
  ⟨"A25LQ16", 0x37, 0x40150000, 64 * 1024, 32, false, 270, 360⟩,
  ⟨"A25LQ32", 0x37, 0x40160000, 64 * 1024, 64, false, 270, 360⟩,
  ⟨"A25LQ64", 0x37, 0x40170000, 64 * 1024, 128, false, 270, 360⟩,
  ⟨"ES25P10", 0x4a, 0x20110000, 64 * 1024, 4, false, 270, 360⟩,
  ⟨"ES25P20", 0x4a, 0x20120000, 64 * 1024, 8, false, 270, 360⟩,
  ⟨"ES25P40", 0x4a, 0x20130000, 64 * 1024, 16, false, 270, 360⟩,
  ⟨"ES25P80", 0x4a, 0x20140000, 64 * 1024, 32, false, 270, 360⟩,
  ⟨"ES25P16", 0x4a, 0x20150000, 64 * 1024, 64, false, 270, 360⟩
]

/-- Rows 150..199 of chips_data (split only to keep elaboration fast). -/
def chips_data_part3 : List ChipInfo := [
  ⟨"ES25P32", 0x4a, 0x20160000, 64 * 1024, 128, false, 270, 360⟩,
  ⟨"ES25M40A", 0x4a, 0x32130000, 64 * 1024, 16, false, 270, 360⟩,
  ⟨"ES25M80A", 0x4a, 0x32140000, 64 * 1024, 32, false, 270, 360⟩,
  ⟨"ES25M16A", 0x4a, 0x32150000, 64 * 1024, 64, false, 270, 360⟩,
  ⟨"DQ25Q64AS", 0x54, 0x40170000, 64 * 1024, 128, false, 270, 360⟩,
  ⟨"ZB25LD10A", 0x5e, 0x10110000, 64 * 1024, 2, false, 165, 195⟩,
  ⟨"ZB25LD20A", 0x5e, 0x10120000, 64 * 1024, 4, false, 165, 195⟩,
  ⟨"ZB25LD40B", 0x5e, 0x10130000, 64 * 1024, 8, false, 165, 195⟩,
  ⟨"ZB25LD80", 0x5e, 0x10140000, 64 * 1024, 16, false, 165, 195⟩,
  ⟨"ZB25D10A", 0x5e, 0x32110000, 64 * 1024, 2, false, 270, 360⟩,
  ⟨"ZB25D20A", 0x5e, 0x32120000, 64 * 1024, 4, false, 270, 360⟩,
  ⟨"ZB25D40B", 0x5e, 0x32130000, 64 * 1024, 8, false, 270, 360⟩,
  ⟨"ZB25D80B", 0x5e, 0x32140000, 64 * 1024, 16, false, 270, 360⟩,
  ⟨"ZB25VQ16", 0x5e, 0x40150000, 64 * 1024, 32, false, 230, 360⟩,
  ⟨"ZB25VQ32", 0x5e, 0x40160000, 64 * 1024, 64, false, 230, 360⟩,
  ⟨"ZB25VQ64", 0x5e, 0x40170000, 64 * 1024, 128, false, 230, 360⟩,
  ⟨"ZB25VQ128", 0x5e, 0x40180000, 64 * 1024, 256, false, 230, 360⟩,
  ⟨"ZB25LQ16", 0x5e, 0x50150000, 64 * 1024, 32, false, 165, 195⟩,
  ⟨"ZB25LQ32", 0x5e, 0x50160000, 64 * 1024, 64, false, 165, 195⟩,
  ⟨"ZB25LQ64", 0x5e, 0x50170000, 64 * 1024, 128, false, 165, 195⟩,
  ⟨"ZB25LQ128", 0x5e, 0x50180000, 64 * 1024, 256, false, 165, 195⟩,
  ⟨"ZB25VQ20A", 0x5e, 0x60120000, 64 * 1024, 4, false, 270, 360⟩,
  ⟨"ZB25VQ40A", 0x5e, 0x60130000, 64 * 1024, 8, false, 270, 360⟩,
  ⟨"ZB25VQ80A", 0x5e, 0x60140000, 64 * 1024, 16, false, 270, 360⟩,
  ⟨"ZB25VQ16A", 0x5e, 0x60150000, 64 * 1024, 32, false, 270, 360⟩,
  ⟨"LE25U20AMB", 0x62, 0x06120000, 64 * 1024, 4, false, 230, 360⟩,
  ⟨"LE25U40CMC", 0x62, 0x06130000, 64 * 1024, 8, false, 230, 360⟩,
  ⟨"BY25Q05AW", 0x68, 0x10100000, 64 * 1024, 1, false, 165, 360⟩,
  ⟨"BY25Q10AW", 0x68, 0x10110000, 64 * 1024, 2, false, 165, 360⟩,
  ⟨"BY25Q20BL", 0x68, 0x10120000, 64 * 1024, 4, false, 165, 200⟩,
  ⟨"BY25Q40BL", 0x68, 0x10130000, 64 * 1024, 8, false, 165, 210⟩,
  ⟨"BY25Q80AW", 0x68, 0x10140000, 64 * 1024, 16, false, 165, 200⟩,
  ⟨"BY25Q16BL", 0x68, 0x10150000, 64 * 1024, 32, false, 165, 200⟩,
  ⟨"BY25D05AS", 0x68, 0x40100000, 64 * 1024, 1, false, 270, 360⟩,
  ⟨"BY25D10AS", 0x68, 0x40110000, 64 * 1024, 2, false, 270, 360⟩,
  ⟨"BY25D20AS", 0x68, 0x40120000, 64 * 1024, 4, false, 270, 360⟩,
  ⟨"BY25D40AS", 0x68, 0x40130000, 64 * 1024, 8, false, 270, 360⟩,
  ⟨"BY25Q80BS", 0x68, 0x40140000, 64 * 1024, 16, false, 270, 360⟩,
  ⟨"BY25Q16BS", 0x68, 0x40150000, 64 * 1024, 32, false, 270, 360⟩,
  ⟨"BY25Q32BS", 0x68, 0x40160000, 64 * 1024, 64, false, 270, 360⟩,
  ⟨"BY25Q64AS", 0x68, 0x40170000, 64 * 1024, 128, false, 270, 360⟩,
  ⟨"BY25Q128AS", 0x68, 0x40180000, 64 * 1024, 256, false, 270, 360⟩,
  ⟨"BY25Q256ES", 0x68, 0x40190000, 64 * 1024, 512, true, 270, 360⟩,
  ⟨"BY25Q10AL", 0x68, 0x60110000, 64 * 1024, 2, false, 165, 200⟩,
  ⟨"BY25Q20AL", 0x68, 0x60120000, 64 * 1024, 4, false, 165, 200⟩,
  ⟨"BY25Q40AL", 0x68, 0x60130000, 64 * 1024, 8, false, 165, 200⟩,
  ⟨"BY25Q32AL", 0x68, 0x60160000, 64 * 1024, 64, false, 165, 200⟩,
  ⟨"BY25Q64AL", 0x68, 0x60170000, 64 * 1024, 128, false, 165, 200⟩,
  ⟨"BY25Q128EL", 0x68, 0x60180000, 64 * 1024, 256, false, 165, 200⟩,
  ⟨"Pm25LQ512B", 0x7f, 0x9d200500, 64 * 1024, 1, false, 270, 360⟩
]

/-- Rows 200..249 of chips_data (split only to keep elaboration fast). -/
def chips_data_part4 : List ChipInfo := [
  ⟨"Pm25LQ010B", 0x7f, 0x9d211000, 64 * 1024, 2, false, 270, 360⟩,
  ⟨"Pm25LQ020B", 0x7f, 0x9d421100, 64 * 1024, 4, false, 270, 360⟩,
  ⟨"PM25LQ016", 0x7f, 0x9d450000, 64 * 1024, 32, false, 230, 360⟩,
  ⟨"PM25LQ032", 0x7f, 0x9d460000, 64 * 1024, 64, false, 230, 360⟩,
  ⟨"PM25LQ064", 0x7f, 0x9d470000, 64 * 1024, 128, false, 230, 360⟩,
  ⟨"PM25LQ128", 0x7f, 0x9d480000, 64 * 1024, 256, false, 230, 360⟩,
  ⟨"Pm25LQ040B", 0x7f, 0x9d7e7e00, 64 * 1024, 8, false, 270, 360⟩,
  ⟨"P25Q06H", 0x85, 0x00100000, 64 * 1024, 1, false, 270, 360⟩,
  ⟨"P25Q40H", 0x85, 0x20130000, 64 * 1024, 8, false, 270, 360⟩,
  ⟨"P25Q11H", 0x85, 0x40110000, 64 * 1024, 2, false, 270, 360⟩,
  ⟨"P25Q21H", 0x85, 0x40120000, 64 * 1024, 4, false, 270, 360⟩,
  ⟨"P25Q10H", 0x85, 0x60110000, 64 * 1024, 2, false, 230, 360⟩,
  ⟨"P25Q20H", 0x85, 0x60120000, 64 * 1024, 4, false, 230, 360⟩,
  ⟨"P25Q40H", 0x85, 0x60130000, 64 * 1024, 8, false, 230, 360⟩,
  ⟨"P25Q80H", 0x85, 0x60140000, 64 * 1024, 16, false, 270, 360⟩,
  ⟨"P25Q16H", 0x85, 0x60150000, 64 * 1024, 32, false, 270, 360⟩,
  ⟨"P25Q32H", 0x85, 0x60160000, 64 * 1024, 64, false, 270, 360⟩,
  ⟨"P25Q64H", 0x85, 0x60170000, 64 * 1024, 128, false, 230, 360⟩,
  ⟨"P25Q128H", 0x85, 0x60180000, 64 * 1024, 256, false, 230, 360⟩,
  ⟨"F25L004A", 0x8c, 0x20130000, 64 * 1024, 8, false, 270, 360⟩,
  ⟨"F25L008A", 0x8c, 0x20140000, 64 * 1024, 16, false, 270, 360⟩,
  ⟨"F25L016", 0x8c, 0x21150000, 64 * 1024, 32, false, 270, 360⟩,
  ⟨"F25L032", 0x8c, 0x21160000, 64 * 1024, 64, false, 270, 360⟩,
  ⟨"F25L064", 0x8c, 0x21170000, 64 * 1024, 128, false, 270, 360⟩,
  ⟨"F25L16QA", 0x8c, 0x41158c41, 64 * 1024, 32, false, 270, 360⟩,
  ⟨"F25L32QA", 0x8c, 0x41168c41, 64 * 1024, 64, false, 270, 360⟩,
  ⟨"F25L64QA", 0x8c, 0x41170000, 64 * 1024, 128, false, 270, 360⟩,
  ⟨"IS25LQ010", 0x9d, 0x40110000, 64 * 1024, 2, false, 230, 360⟩,
  ⟨"IS25LQ020", 0x9d, 0x40120000, 64 * 1024, 4, false, 230, 360⟩,
  ⟨"IS25LP080D", 0x9d, 0x60140000, 64 * 1024, 16, false, 230, 360⟩,
  ⟨"IS25LP016D", 0x9d, 0x60150000, 64 * 1024, 32, false, 230, 360⟩,
  ⟨"IS25LP032D", 0x9d, 0x60160000, 64 * 1024, 64, false, 230, 360⟩,
  ⟨"IS25LP064D", 0x9d, 0x60170000, 64 * 1024, 128, false, 230, 360⟩,
  ⟨"IS25LP128F", 0x9d, 0x60180000, 64 * 1024, 256, false, 230, 360⟩,
  ⟨"IS25LP256D", 0x9d, 0x60190000, 64 * 1024, 512, true, 230, 360⟩,
  ⟨"IS25LP512D", 0x9d, 0x601a0000, 64 * 1024, 1024, true, 230, 360⟩,
  ⟨"IS25WP040D", 0x9d, 0x70130000, 64 * 1024, 8, false, 165, 195⟩,
  ⟨"IS25WP080D", 0x9d, 0x70140000, 64 * 1024, 16, false, 165, 195⟩,
  ⟨"IS25WP016D", 0x9d, 0x70150000, 64 * 1024, 32, false, 165, 195⟩,
  ⟨"IS25WP032D", 0x9d, 0x70160000, 64 * 1024, 64, false, 165, 195⟩,
  ⟨"IS25WP064D", 0x9d, 0x70170000, 64 * 1024, 128, false, 165, 195⟩,
  ⟨"IS25WP128F", 0x9d, 0x70180000, 64 * 1024, 256, false, 165, 195⟩,
  ⟨"IS25WP256D", 0x9d, 0x70190000, 64 * 1024, 512, true, 165, 195⟩,
  ⟨"IS25WP512D", 0x9d, 0x701a0000, 64 * 1024, 1024, true, 165, 195⟩,
  ⟨"FM25W04", 0xa1, 0x28130000, 64 * 1024, 8, false, 165, 360⟩,
  ⟨"FM25W16", 0xa1, 0x28150000, 64 * 1024, 32, false, 165, 360⟩,
  ⟨"FM25W32", 0xa1, 0x28160000, 64 * 1024, 64, false, 165, 360⟩,
  ⟨"FM25W64", 0xa1, 0x28170000, 64 * 1024, 128, false, 165, 360⟩,
  ⟨"FM25W128", 0xa1, 0x28180000, 64 * 1024, 256, false, 165, 360⟩,
  ⟨"FM25Q04", 0xa1, 0x40130000, 64 * 1024, 8, false, 270, 360⟩
]

/-- Rows 250..299 of chips_data (split only to keep elaboration fast). -/
def chips_data_part5 : List ChipInfo := [
  ⟨"FM25Q08", 0xa1, 0x40140000, 64 * 1024, 16, false, 270, 360⟩,
  ⟨"FM25Q16", 0xa1, 0x40150000, 64 * 1024, 32, false, 270, 360⟩,
  ⟨"FS25Q32", 0xa1, 0x40160000, 64 * 1024, 64, false, 270, 360⟩,
  ⟨"FS25Q64", 0xa1, 0x40170000, 64 * 1024, 128, false, 270, 360⟩,
  ⟨"FS25Q128", 0xa1, 0x40180000, 64 * 1024, 256, false, 270, 360⟩,
  ⟨"ZD25Q64B", 0xba, 0x32170000, 64 * 1024, 128, false, 270, 360⟩,
  ⟨"ZD25LQ128", 0xba, 0x42180000, 64 * 1024, 256, false, 165, 195⟩,
  ⟨"ZD25LQ64", 0xba, 0x43170000, 64 * 1024, 128, false, 165, 195⟩,
  ⟨"ZD25WD20B", 0xba, 0x60120000, 64 * 1024, 4, false, 165, 360⟩,
  ⟨"ZD25WD40B", 0xba, 0x60130000, 64 * 1024, 8, false, 165, 360⟩,
  ⟨"ZD25Q80C", 0xba, 0x60140000, 64 * 1024, 16, false, 230, 360⟩,
  ⟨"ZD25Q16B", 0xba, 0x60150000, 64 * 1024, 32, false, 270, 360⟩,
  ⟨"ZD25Q32C", 0xba, 0x60160000, 64 * 1024, 64, false, 270, 360⟩,
  ⟨"PCT25VF016B", 0xbf, 0x25410000, 64 * 1024, 32, false, 270, 360⟩,
  ⟨"PCT25VF032B", 0xbf, 0x254a0000, 64 * 1024, 64, false, 270, 360⟩,
  ⟨"PCT25VF064C", 0xbf, 0x254b0000, 64 * 1024, 128, false, 270, 360⟩,
  ⟨"PCT25VF020B", 0xbf, 0x258c0000, 64 * 1024, 4, false, 270, 360⟩,
  ⟨"PCT25VF040B", 0xbf, 0x258d0000, 64 * 1024, 8, false, 270, 360⟩,
  ⟨"PCT25VF080B", 0xbf, 0x258e0000, 64 * 1024, 16, false, 270, 360⟩,
  ⟨"PCT26VF016", 0xbf, 0x26010000, 64 * 1024, 32, false, 270, 360⟩,
  ⟨"PCT26VF032", 0xbf, 0x26020000, 64 * 1024, 64, false, 270, 360⟩,
  ⟨"PCT25VF010A", 0xbf, 0x49000000, 64 * 1024, 2, false, 270, 360⟩,
  ⟨"MX25L8005M", 0xc2, 0x2014c220, 64 * 1024, 16, false, 270, 360⟩,
  ⟨"MX25L1605D", 0xc2, 0x2015c220, 64 * 1024, 32, false, 270, 360⟩,
  ⟨"MX25L3205D", 0xc2, 0x2016c220, 64 * 1024, 64, false, 270, 360⟩,
  ⟨"MX25L6405D", 0xc2, 0x2017c220, 64 * 1024, 128, false, 270, 360⟩,
  ⟨"MX25L12805D", 0xc2, 0x2018c220, 64 * 1024, 256, false, 270, 360⟩,
  ⟨"MX25L25635E", 0xc2, 0x2019c220, 64 * 1024, 512, true, 270, 360⟩,
  ⟨"MX25L51245G", 0xc2, 0x201ac220, 64 * 1024, 1024, true, 270, 360⟩,
  ⟨"MX25U5121E", 0xc2, 0x25300000, 64 * 1024, 1, false, 165, 200⟩,
  ⟨"MX25U1001E", 0xc2, 0x25310000, 64 * 1024, 2, false, 165, 200⟩,
  ⟨"MX25U2035F", 0xc2, 0x25320000, 64 * 1024, 4, false, 165, 200⟩,
  ⟨"MX25U4035F", 0xc2, 0x25330000, 64 * 1024, 8, false, 165, 200⟩,
  ⟨"MX25U80356", 0xc2, 0x25340000, 64 * 1024, 16, false, 165, 200⟩,
  ⟨"MX25U1632F", 0xc2, 0x25350000, 64 * 1024, 32, false, 165, 200⟩,
  ⟨"MX25U3232F", 0xc2, 0x25360000, 64 * 1024, 64, false, 165, 200⟩,
  ⟨"MX25U6432F", 0xc2, 0x25370000, 64 * 1024, 128, false, 165, 200⟩,
  ⟨"MX25U12832F", 0xc2, 0x25380000, 64 * 1024, 256, false, 165, 200⟩,
  ⟨"MX25U25643G", 0xc2, 0x25390000, 64 * 1024, 512, true, 165, 200⟩,
  ⟨"MX25U51245G", 0xc2, 0x253a0000, 64 * 1024, 1024, true, 165, 200⟩,
  ⟨"MX25R2035F", 0xc2, 0x28120000, 64 * 1024, 4, false, 165, 360⟩,
  ⟨"MX25R4035F", 0xc2, 0x28130000, 64 * 1024, 8, false, 165, 360⟩,
  ⟨"MX25R8035F", 0xc2, 0x28140000, 64 * 1024, 16, false, 165, 360⟩,
  ⟨"MX25R1635F", 0xc2, 0x28150000, 64 * 1024, 32, false, 165, 360⟩,
  ⟨"MX25R3235F", 0xc2, 0x28160000, 64 * 1024, 64, false, 165, 360⟩,
  ⟨"MX25R6435F", 0xc2, 0x28170000, 64 * 1024, 128, false, 165, 360⟩,
  ⟨"GD25F40", 0xc8, 0x20130000, 64 * 1024, 8, false, 270, 360⟩,
  ⟨"GD25F80", 0xc8, 0x20140000, 64 * 1024, 16, false, 270, 360⟩,
  ⟨"GD25D40", 0xc8, 0x30130000, 64 * 1024, 8, false, 270, 360⟩,
  ⟨"GD25D80", 0xc8, 0x30140000, 64 * 1024, 16, false, 270, 360⟩
]

/-- Rows 300..349 of chips_data (split only to keep elaboration fast). -/
def chips_data_part6 : List ChipInfo := [
  ⟨"GD25D05C", 0xc8, 0x40100000, 64 * 1024, 1, false, 270, 360⟩,
  ⟨"GD25D10C", 0xc8, 0x40110000, 64 * 1024, 2, false, 270, 360⟩,
  ⟨"GD25Q20C", 0xc8, 0x40120000, 64 * 1024, 4, false, 270, 360⟩,
  ⟨"GD25Q40C", 0xc8, 0x40130000, 64 * 1024, 8, false, 270, 360⟩,
  ⟨"GD25Q80C", 0xc8, 0x40140000, 64 * 1024, 16, false, 270, 360⟩,
  ⟨"GD25Q16C", 0xc8, 0x40150000, 64 * 1024, 32, false, 270, 360⟩,
  ⟨"GD25Q32", 0xc8, 0x40160000, 64 * 1024, 64, false, 270, 360⟩,
  ⟨"GD25Q64CSIG", 0xc8, 0x40170000, 64 * 1024, 128, false, 270, 360⟩,
  ⟨"GD25Q128CSIG", 0xc8, 0x4018c840, 64 * 1024, 256, false, 270, 360⟩,
  ⟨"GD25Q256CSIG", 0xc8, 0x4019c840, 64 * 1024, 512, true, 270, 360⟩,
  ⟨"GD25LD05C", 0xc8, 0x60100000, 64 * 1024, 1, false, 165, 200⟩,
  ⟨"GD25LD10C", 0xc8, 0x60110000, 64 * 1024, 2, false, 165, 200⟩,
  ⟨"GD25LD20C", 0xc8, 0x60120000, 64 * 1024, 4, false, 165, 200⟩,
  ⟨"GD25LD40C", 0xc8, 0x60130000, 64 * 1024, 8, false, 165, 200⟩,
  ⟨"GD25LQ80C", 0xc8, 0x60140000, 64 * 1024, 16, false, 165, 210⟩,
  ⟨"GD25LQ16C", 0xc8, 0x60150000, 64 * 1024, 32, false, 165, 210⟩,
  ⟨"GD25LQ32E", 0xc8, 0x60160000, 64 * 1024, 64, false, 165, 210⟩,
  ⟨"GD25LQ64E", 0xc8, 0x60170000, 64 * 1024, 128, false, 165, 200⟩,
  ⟨"GD25LQ128", 0xc8, 0x6018c840, 64 * 1024, 256, false, 165, 200⟩,
  ⟨"GD25LQ256D", 0xc8, 0x60190000, 64 * 1024, 512, true, 165, 200⟩,
  ⟨"GD25WD05C", 0xc8, 0x64100000, 64 * 1024, 1, false, 165, 360⟩,
  ⟨"GD25WD10C", 0xc8, 0x64110000, 64 * 1024, 2, false, 165, 360⟩,
  ⟨"GD25WD20E", 0xc8, 0x64120000, 64 * 1024, 4, false, 165, 360⟩,
  ⟨"GD25WD40E", 0xc8, 0x64130000, 64 * 1024, 8, false, 165, 360⟩,
  ⟨"GD25WD80C", 0xc8, 0x64140000, 64 * 1024, 16, false, 165, 360⟩,
  ⟨"GD25WQ20E", 0xc8, 0x65120000, 64 * 1024, 4, false, 165, 360⟩,
  ⟨"GD25WQ40E", 0xc8, 0x65130000, 64 * 1024, 8, false, 165, 360⟩,
  ⟨"GD25WQ80E", 0xc8, 0x65140000, 64 * 1024, 16, false, 165, 360⟩,
  ⟨"GD25WQ16E", 0xc8, 0x65150000, 64 * 1024, 32, false, 165, 360⟩,
  ⟨"GD25WQ32E", 0xc8, 0x65160000, 64 * 1024, 64, false, 165, 360⟩,
  ⟨"GD25WQ64E", 0xc8, 0x65170000, 64 * 1024, 128, false, 165, 360⟩,
  ⟨"GD25WQ128E", 0xc8, 0x65180000, 64 * 1024, 256, false, 165, 360⟩,
  ⟨"GD25WB256E", 0xc8, 0x65190000, 64 * 1024, 512, true, 165, 360⟩,
  ⟨"GD25LB512ME", 0xc8, 0x671a0000, 64 * 1024, 1024, true, 165, 200⟩,
  ⟨"YC25Q128", 0xd8, 0x4018c840, 64 * 1024, 256, false, 270, 360⟩,
  ⟨"PN25F08", 0xe0, 0x40140000, 64 * 1024, 16, false, 270, 360⟩,
  ⟨"PN25F16", 0xe0, 0x40150000, 64 * 1024, 32, false, 270, 360⟩,
  ⟨"PN25F32", 0xe0, 0x40160000, 64 * 1024, 64, false, 270, 360⟩,
  ⟨"PN25F64", 0xe0, 0x40170000, 64 * 1024, 128, false, 270, 360⟩,
  ⟨"PN25F128", 0xe0, 0x40180000, 64 * 1024, 256, false, 270, 360⟩,
  ⟨"W25P80", 0xef, 0x20140000, 64 * 1024, 16, false, 270, 360⟩,
  ⟨"W25P16", 0xef, 0x20150000, 64 * 1024, 32, false, 270, 360⟩,
  ⟨"W25P32", 0xef, 0x20160000, 64 * 1024, 64, false, 270, 360⟩,
  ⟨"W25X05", 0xef, 0x30100000, 64 * 1024, 1, false, 230, 360⟩,
  ⟨"W25X10", 0xef, 0x30110000, 64 * 1024, 2, false, 270, 360⟩,
  ⟨"W25X20", 0xef, 0x30120000, 64 * 1024, 4, false, 270, 360⟩,
  ⟨"W25X40", 0xef, 0x30130000, 64 * 1024, 8, false, 270, 360⟩,
  ⟨"W25X80", 0xef, 0x30140000, 64 * 1024, 16, false, 270, 360⟩,
  ⟨"W25X16", 0xef, 0x30150000, 64 * 1024, 32, false, 270, 360⟩,
  ⟨"W25X32VS", 0xef, 0x30160000, 64 * 1024, 64, false, 270, 360⟩
]

/-- Rows 350..384 of chips_data (split only to keep elaboration fast). -/
def chips_data_part7 : List ChipInfo := [
  ⟨"W25X64", 0xef, 0x30170000, 64 * 1024, 128, false, 270, 360⟩,
  ⟨"W25Q20CL", 0xef, 0x40120000, 64 * 1024, 4, false, 230, 360⟩,
  ⟨"W25Q40BV", 0xef, 0x40130000, 64 * 1024, 8, false, 270, 360⟩,
  ⟨"W25Q80BL", 0xef, 0x40140000, 64 * 1024, 16, false, 230, 360⟩,
  ⟨"W25Q16DV", 0xef, 0x40150000, 64 * 1024, 32, false, 270, 360⟩,
  ⟨"W25Q32BV", 0xef, 0x40160000, 64 * 1024, 64, false, 270, 360⟩,
  ⟨"W25Q64BV", 0xef, 0x40170000, 64 * 1024, 128, false, 270, 360⟩,
  ⟨"W25Q128BV", 0xef, 0x40180000, 64 * 1024, 256, false, 270, 360⟩,
  ⟨"W25Q256FV", 0xef, 0x40190000, 64 * 1024, 512, true, 270, 360⟩,
  ⟨"W25Q20BW", 0xef, 0x50120000, 64 * 1024, 4, false, 165, 195⟩,
  ⟨"W25Q80", 0xef, 0x50140000, 64 * 1024, 16, false, 230, 360⟩,
  ⟨"W25Q10EW", 0xef, 0x60110000, 64 * 1024, 2, false, 165, 195⟩,
  ⟨"W25Q20EW", 0xef, 0x60120000, 64 * 1024, 4, false, 165, 195⟩,
  ⟨"W25Q40EW", 0xef, 0x60130000, 64 * 1024, 8, false, 165, 195⟩,
  ⟨"W25Q80EW", 0xef, 0x60140000, 64 * 1024, 16, false, 165, 195⟩,
  ⟨"W25Q16JW", 0xef, 0x60150000, 64 * 1024, 32, false, 165, 195⟩,
  ⟨"W25Q32FW", 0xef, 0x60160000, 64 * 1024, 64, false, 165, 195⟩,
  ⟨"W25Q64DW", 0xef, 0x60170000, 64 * 1024, 128, false, 170, 195⟩,
  ⟨"W25Q128FW", 0xef, 0x60180000, 64 * 1024, 256, false, 165, 195⟩,
  ⟨"W25Q256JW", 0xef, 0x60190000, 64 * 1024, 512, true, 170, 195⟩,
  ⟨"W25M512JW", 0xef, 0x61190000, 64 * 1024, 1024, true, 170, 195⟩,
  ⟨"W25Q512JV", 0xef, 0x70200000, 64 * 1024, 1024, true, 270, 360⟩,
  ⟨"W25M512JV", 0xef, 0x71190000, 64 * 1024, 1024, true, 270, 360⟩,
  ⟨"W25Q32JW", 0xef, 0x80160000, 64 * 1024, 64, false, 170, 195⟩,
  ⟨"FM25Q04A", 0xf8, 0x32130000, 64 * 1024, 8, false, 270, 360⟩,
  ⟨"FM25Q08A", 0xf8, 0x32140000, 64 * 1024, 16, false, 270, 360⟩,
  ⟨"FM25Q16A", 0xf8, 0x32150000, 64 * 1024, 32, false, 270, 360⟩,
  ⟨"FM25Q32A", 0xf8, 0x32160000, 64 * 1024, 64, false, 270, 360⟩,
  ⟨"FM25Q64A", 0xf8, 0x32170000, 64 * 1024, 128, false, 270, 360⟩,
  ⟨"FM25Q128A", 0xf8, 0x32180000, 64 * 1024, 256, false, 270, 360⟩,
  ⟨"FM25M04A", 0xf8, 0x42130000, 64 * 1024, 8, false, 165, 195⟩,
  ⟨"FM25M08A", 0xf8, 0x42140000, 64 * 1024, 16, false, 165, 195⟩,
  ⟨"FM25M16A", 0xf8, 0x42150000, 64 * 1024, 32, false, 165, 195⟩,
  ⟨"FM25M32B", 0xf8, 0x42160000, 64 * 1024, 64, false, 165, 195⟩,
  ⟨"FM25M64A", 0xf8, 0x42170000, 64 * 1024, 128, false, 165, 195⟩
]

/-- The static catalog `chips_data` (spi_nor_flash.c:300-713), row for row. -/
def chips_data : List ChipInfo :=
  chips_data_part0 ++ chips_data_part1 ++ chips_data_part2 ++ chips_data_part3 ++ chips_data_part4 ++ chips_data_part5 ++ chips_data_part6 ++ chips_data_part7

/-- Capacity of a chip: `sector_size * n_sectors`, the product used by
snor_init, snor_erase and snor_write. -/
def ChipInfo.capacity (c : ChipInfo) : Nat := c.sector_size * c.n_sectors

/-- The jedec word assembled by chip_prob (spi_nor_flash.c:782):
`(buf[1]<<24) | (buf[2]<<16) | (buf[3]<<8) | buf[4]` over u8 bytes, as u32. -/
def assembleJedec (b1 b2 b3 b4 : Nat) : Nat :=
  (((b1 % 256) <<< 24) ||| ((b2 % 256) <<< 16) ||| ((b3 % 256) <<< 8) ||| (b4 % 256)) % 2^32

/-- The match condition of the scan in chip_prob (spi_nor_flash.c:792-793):
manufacturer byte equal, and jedec equal exactly or equal after masking both
sides with 0xffff0000. -/
def chipMatch (b0 jedec : Nat) (info : ChipInfo) : Bool :=
  info.id == b0 &&
    (info.jedec_id == jedec ||
      (info.jedec_id &&& 0xffff0000) == (jedec &&& 0xffff0000))

/-- The scan loop of chip_prob (spi_nor_flash.c:790-805), including the
closest-match tracking (`weight`, `match`): on a manufacturer and
exact-or-family hit the row is returned at once; otherwise the row with
minimal `jedec_id XOR jedec` is remembered.  After the loop the C code
overwrites `match` with NULL (line 807), so the empty-list case returns
none whatever was tracked. -/
def chip_prob_loop (b0 jedec : Nat) :
    List ChipInfo → Nat → Option ChipInfo → Option ChipInfo
  | [], _, _ => none
  | info :: rest, weight, best =>
    if info.id == b0 then
      if (info.jedec_id == jedec) ||
          ((info.jedec_id &&& 0xffff0000) == (jedec &&& 0xffff0000)) then
        some info
      else if (info.jedec_id ^^^ jedec) < weight then
        chip_prob_loop b0 jedec rest (info.jedec_id ^^^ jedec) (some info)
      else
        chip_prob_loop b0 jedec rest weight best
    else
      chip_prob_loop b0 jedec rest weight best

/-- chip_prob (spi_nor_flash.c:774-810) given the five raw ID bytes:
assembles the jedec word and scans the catalog; returns none (NULL) when no
row matches.  `weight` starts at 0xffffffff and `match` at the first catalog
row, as in the C code. -/
def chip_prob (b0 b1 b2 b3 b4 : Nat) : Option ChipInfo :=
  chip_prob_loop (b0 % 256) (assembleJedec b1 b2 b3 b4) chips_data 0xffffffff
    (some (chips_data.getD 0 ⟨"", 0, 0, 0, 0, false, 0, 0⟩))

theorem chip_prob_loop_eq_find? (b0 jedec : Nat) :
    ∀ (l : List ChipInfo) (weight : Nat) (best : Option ChipInfo),
      chip_prob_loop b0 jedec l weight best = l.find? (chipMatch b0 jedec) := by
  intro l
  induction l with
  | nil => intro weight best; rfl
  | cons info rest ih =>
    intro weight best
    by_cases hid : (info.id == b0) = true
    · by_cases hj : ((info.jedec_id == jedec) ||
          ((info.jedec_id &&& 0xffff0000) == (jedec &&& 0xffff0000))) = true
      · have hp : chipMatch b0 jedec info = true := by
          unfold chipMatch
          rw [hid, hj]
          rfl
        rw [List.find?_cons_of_pos _ hp]
        simp [chip_prob_loop, hid, hj]
      · have hp : chipMatch b0 jedec info = false := by
          unfold chipMatch
          rw [hid]
          simp only [Bool.true_and]
          exact Bool.eq_false_iff.mpr (fun h => hj h)
        rw [List.find?_cons_of_neg _ (by simp [hp])]
        by_cases hw : (info.jedec_id ^^^ jedec) < weight
        · simp [chip_prob_loop, hid, hj, hw, ih]
        · simp [chip_prob_loop, hid, hj, hw, ih]
    · have hp : chipMatch b0 jedec info = false := by
        unfold chipMatch
        rw [Bool.eq_false_iff.mpr (fun h => hid h)]
        rfl
      rw [List.find?_cons_of_neg _ (by simp [hp])]
      simp [chip_prob_loop, hid, ih]

set_option maxRecDepth 4000 in
/-- Claim C1: chip_prob returns the first catalog row whose manufacturer id
equals the first ID byte and whose jedec id matches the assembled jedec word
exactly or after masking both with 0xffff0000; with no such row it returns
none (the tracked closest match is discarded), and bytes ef 40 18 00 00
resolve to a 65536-byte-sector, 256-sector, 3-byte-addressing descriptor. -/
theorem claim_c1_identification :
    (∀ b0 b1 b2 b3 b4 : Nat,
        chip_prob b0 b1 b2 b3 b4
          = chips_data.find? (chipMatch (b0 % 256) (assembleJedec b1 b2 b3 b4)))
    ∧ (chip_prob 0xef 0x40 0x18 0 0).map
        (fun c => (c.sector_size, c.n_sectors, c.addr4b)) = some (65536, 256, false) := by
  constructor
  · intro b0 b1 b2 b3 b4
    exact chip_prob_loop_eq_find? _ _ chips_data _ _
  · decide

/-- All ordered collisions of (manufacturer id, jedec id) in a catalog: for
each row, the names of the later rows sharing both ids. -/
def pairDups : List ChipInfo → List (String × String)
  | [] => []
  | c :: rest =>
    ((rest.filter (fun d => c.id == d.id && c.jedec_id == d.jedec_id)).map
      (fun d => (c.name, d.name))) ++ pairDups rest

set_option maxRecDepth 4000 in
/-- Claim C4, counterexample: rows 110 (N25Q064A) and 111 (MT25QL64AB) of the
catalog are distinct rows with the same (manufacturer_id, jedec_id) pair
(0x20, 0xba170000), so catalog pairs are not unique. -/
theorem claim_c4_counterexample :
    (110 : Nat) ≠ 111 ∧ 111 < chips_data.length ∧
    (chips_data.getD 110 ⟨"", 0, 0, 0, 0, false, 0, 0⟩).id
      = (chips_data.getD 111 ⟨"", 0, 0, 0, 0, false, 0, 0⟩).id ∧
    (chips_data.getD 110 ⟨"", 0, 0, 0, 0, false, 0, 0⟩).jedec_id
      = (chips_data.getD 111 ⟨"", 0, 0, 0, 0, false, 0, 0⟩).jedec_id := by
  decide

set_option maxRecDepth 4000 in
/-- Claim C4, amended: the catalog has exactly eight collisions of the
(manufacturer_id, jedec_id) pair — the five Micron N25Q/MT25Q alias pairs,
the AMIC pairs A25L20PU/A25L40PU and A25L20PT/A25L40PT, and a literally
duplicated A25L040 row; every other pair of rows differs in manufacturer or
jedec id. -/
theorem claim_c4_amended :
    pairDups chips_data =
      [("N25Q064A", "MT25QL64AB"), ("N25Q128A", "MT25QL128AB"),
       ("N25Q256A", "MT25QL256AB"), ("N25Q064A", "MT25QU64AB"),
       ("N25Q128A", "MT25QU128AB"), ("A25L20PU", "A25L40PU"),
       ("A25L20PT", "A25L40PT"), ("A25L040", "A25L040")] := by
  decide

/-- Row 357 of the catalog (W25Q128BV), used as concrete active chip in
witnesses: 64 KiB sectors, 256 sectors, 3-byte addressing. -/
def W25Q128BV : ChipInfo := ⟨"W25Q128BV", 0xef, 0x40180000, 64 * 1024, 256, false, 270, 360⟩

/-- tilesB start total chunks: the chunks are consecutive, each nonempty, and
exactly cover [start, start+total). -/
def tilesB : Nat → Nat → List (Nat × Nat) → Bool
  | _, total, [] => decide (total = 0)
  | start, total, c :: rest =>
    decide (c.1 = start) && decide (0 < c.2) && decide (c.2 ≤ total) &&
      tilesB (start + c.2) (total - c.2) rest

/-- Sum of the sizes of a chunk list. -/
def sumSnd : List (Nat × Nat) → Nat
  | [] => 0
  | c :: r => c.2 + sumSnd r

/-- The page-chunk sequence computed by the snor_write loop
(spi_nor_flash.c:963-972, 1014-1016), destination offset `dst` standing for
the C variable `to`: page_offset = to % 256 before the loop, then per
iteration page_size = min(len, 256 - page_offset), page_offset = 0,
to += page_size, len -= page_size.  The fuel argument only bounds the
recursion; fuel ≥ len always suffices since every iteration consumes at
least one byte of len. -/
def pageChunks : Nat → Nat → Nat → Nat → List (Nat × Nat)
  | 0, _, _, _ => []
  | fuel+1, dst, len, page_offset =>
    if len = 0 then []
    else
      let page_size := min len (256 - page_offset)
      (dst, page_size) :: pageChunks fuel (dst + page_size) (len - page_size) 0

/-- The (address, size) pairs of the page programs snor_write issues for a
fully successful transfer of len bytes starting at offset dst. -/
def writeChunks (dst len : Nat) : List (Nat × Nat) := pageChunks len dst len (dst % 256)

/-- The while loop of snor_write (spi_nor_flash.c:970-1017) with the
transport modelled by `tr : Nat → Bool`, the success of the i-th
page-program bus write: on success SPI_CONTROLLER_Write_NByte returns 0 and
the code sets rc = page_size, on failure nonzero and rc = 1; when rc > 0 it
is added to retlen, and when additionally rc < page_size the call returns
retlen - rc at once.  Result: (value returned, page programs issued as
(address, size)).  wait_ready, write_enable and unprotect per chunk always
succeed here and are outside the result. -/
def snor_write_loop (tr : Nat → Bool) :
    Nat → Nat → Nat → Nat → Nat → Nat → Nat × List (Nat × Nat)
  | 0, _, _, _, _, retlen => (retlen, [])
  | fuel+1, i, dst, len, page_offset, retlen =>
    if len = 0 then (retlen, [])
    else
      let page_size := min len (256 - page_offset)
      let rc := if tr i then page_size else 1
      let retlen2 := if 0 < rc then retlen + rc else retlen
      if 0 < rc ∧ rc < page_size then
        (retlen2 - rc, [(dst, page_size)])
      else
        let r := snor_write_loop tr fuel (i+1) (dst + page_size) (len - page_size) 0 retlen2
        (r.1, (dst, page_size) :: r.2)

/-- snor_write (spi_nor_flash.c:941-1028): the length-0 and capacity sanity
checks (lines 950-954, with to + len computed in unsigned long, i.e. modulo
2^64), then the chunked loop. -/
def snor_write_model (tr : Nat → Bool) (chip : ChipInfo) (dst len : Nat) :
    Int × List (Nat × Nat) :=
  if len = 0 then (0, [])
  else if chip.sector_size * chip.n_sectors < (dst + len) % 2^64 then (-1, [])
  else
    let r := snor_write_loop tr len 0 dst len (dst % 256) 0
    ((r.1 : Int), r.2)

theorem snor_write_loop_noncross (tr : Nat → Bool) :
    ∀ (fuel i dst len page_offset retlen : Nat),
      (page_offset = dst % 256 ∨ len = 0) →
      ∀ a s, (a, s) ∈ (snor_write_loop tr fuel i dst len page_offset retlen).2 →
        0 < s ∧ a % 256 + s ≤ 256 := by
  intro fuel
  induction fuel with
  | zero => intro i dst len po retlen hpo a s h; simp [snor_write_loop] at h
  | succ fuel ih =>
    intro i dst len po retlen hpo a s h
    by_cases hlen : len = 0
    · simp [snor_write_loop, hlen] at h
    · rcases hpo with hpo | hpo
      · have hpolt : po < 256 := hpo ▸ Nat.mod_lt dst (by omega)
        have hps1 : 0 < min len (256 - po) := by
          have : 0 < len := Nat.pos_of_ne_zero hlen
          omega
        have hhead : 0 < min len (256 - po) ∧ dst % 256 + min len (256 - po) ≤ 256 := by
          refine ⟨hps1, ?_⟩
          have h1 : min len (256 - po) ≤ 256 - po := Nat.min_le_right _ _
          omega
        simp only [snor_write_loop, if_neg hlen] at h
        by_cases hrc : 0 < (if tr i then min len (256 - po) else 1) ∧
            (if tr i then min len (256 - po) else 1) < min len (256 - po)
        · rw [if_pos hrc] at h
          simp at h
          rcases h with ⟨ha, hs⟩
          subst ha; subst hs
          exact hhead
        · rw [if_neg hrc] at h
          simp only [List.mem_cons] at h
          rcases h with h | h
          · have ha : a = dst ∧ s = min len (256 - po) :=
              ⟨congrArg Prod.fst h, congrArg Prod.snd h⟩
            rcases ha with ⟨ha, hs⟩
            subst ha; subst hs
            exact hhead
          · refine ih (i+1) (dst + min len (256 - po)) (len - min len (256 - po)) 0 _ ?_ a s h
            by_cases hc : 256 - po ≤ len
            · left
              have hmin : min len (256 - po) = 256 - po := by omega
              rw [hmin, hpo]
              omega
            · right
              have hmin : min len (256 - po) = len := by omega
              omega
      · simp [snor_write_loop, hpo] at h

theorem pageChunks_tiles :
    ∀ (fuel dst len page_offset : Nat), len ≤ fuel → page_offset < 256 →
      tilesB dst len (pageChunks fuel dst len page_offset) = true := by
  intro fuel
  induction fuel with
  | zero =>
    intro dst len po hle _
    have : len = 0 := by omega
    subst this
    simp [pageChunks, tilesB]
  | succ fuel ih =>
    intro dst len po hle hpo
    by_cases hlen : len = 0
    · subst hlen; simp [pageChunks, tilesB]
    · have hps1 : 0 < min len (256 - po) := by
        have : 0 < len := Nat.pos_of_ne_zero hlen
        omega
      have hpsle : min len (256 - po) ≤ len := Nat.min_le_left _ _
      simp only [pageChunks, if_neg hlen, tilesB]
      rw [ih (dst + min len (256 - po)) (len - min len (256 - po)) 0 (by omega) (by omega)]
      simp [hps1, hpsle]

theorem pageChunks_size_eq_min :
    ∀ (fuel dst len : Nat) (page_offset : Nat), len ≤ fuel →
      page_offset = dst % 256 →
      ∀ a s, (a, s) ∈ pageChunks fuel dst len page_offset →
        s = min (dst + len - a) (256 - a % 256) := by
  intro fuel
  induction fuel with
  | zero => intro dst len po _ _ a s h; simp [pageChunks] at h
  | succ fuel ih =>
    intro dst len po hle hpo a s h
    by_cases hlen : len = 0
    · simp [pageChunks, hlen] at h
    · have hpolt : po < 256 := hpo ▸ Nat.mod_lt dst (by omega)
      have hps1 : 0 < min len (256 - po) := by
        have : 0 < len := Nat.pos_of_ne_zero hlen
        omega
      simp only [pageChunks, if_neg hlen, List.mem_cons] at h
      rcases h with h | h
      · have ha : a = dst ∧ s = min len (256 - po) :=
          ⟨congrArg Prod.fst h, congrArg Prod.snd h⟩
        rcases ha with ⟨ha, hs⟩
        subst ha; subst hs
        rw [hpo]
        omega
      · by_cases hc : 256 - po ≤ len
        · have hmin : min len (256 - po) = 256 - po := by omega
          rw [hmin] at h
          have htail := ih (dst + (256 - po)) (len - (256 - po)) 0 (by omega)
            (by rw [hpo]; omega) a s h
          have hsum : dst + (256 - po) + (len - (256 - po)) = dst + len := by omega
          rw [hsum] at htail
          exact htail
        · have hmin : min len (256 - po) = len := by omega
          rw [hmin] at h
          have : len - len = 0 := by omega
          rw [this] at h
          rcases fuel with _ | fuel <;> simp [pageChunks] at h
  
theorem pageChunks_aligned :
    ∀ (fuel dst len : Nat), dst % 256 = 0 →
      ∀ p, p ∈ pageChunks fuel dst len 0 → p.1 % 256 = 0 := by
  intro fuel
  induction fuel with
  | zero => intro dst len _ p h; simp [pageChunks] at h
  | succ fuel ih =>
    intro dst len hdst p h
    by_cases hlen : len = 0
    · simp [pageChunks, hlen] at h
    · simp only [pageChunks, if_neg hlen, List.mem_cons] at h
      rcases h with h | h
      · rw [h]
        exact hdst
      · by_cases hc : 256 ≤ len
        · have hmin : min len (256 - 0) = 256 := by omega
          rw [hmin] at h
          exact ih (dst + 256) (len - 256) (by omega) p h
        · have hmin : min len (256 - 0) = len := by omega
          rw [hmin] at h
          have : len - len = 0 := by omega
          rw [this] at h
          rcases fuel with _ | fuel <;> simp [pageChunks] at h

theorem writeChunks_tail_aligned (dst len : Nat) :
    ∀ p, p ∈ (writeChunks dst len).tail → p.1 % 256 = 0 := by
  intro p hp
  unfold writeChunks at hp
  rcases hfuel : len with _ | fuel
  · subst hfuel; simp [pageChunks] at hp
  · rw [hfuel] at hp
    by_cases hlen0 : (fuel + 1) = 0
    · omega
    · simp only [pageChunks, if_neg hlen0, List.tail_cons] at hp
      by_cases hc : 256 - dst % 256 ≤ fuel + 1
      · have hmin : min (fuel + 1) (256 - dst % 256) = 256 - dst % 256 := by omega
        rw [hmin] at hp
        exact pageChunks_aligned fuel (dst + (256 - dst % 256)) _ (by omega) p hp
      · have hmin : min (fuel + 1) (256 - dst % 256) = fuel + 1 := by omega
        rw [hmin] at hp
        have : fuel + 1 - (fuel + 1) = 0 := by omega
        rw [this] at hp
        rcases fuel with _ | fuel <;> simp [pageChunks] at hp

/-- Claim C2: no page program issued by snor_write crosses a 256-byte page
boundary, whatever the transport does; on the success path the chunks tile
[dst, dst+len) exactly, every chunk size is min(remaining, 256 - (address
mod 256)) — so the first chunk is min(len, 256 - (dst mod 256)) and each
later chunk starts page-aligned — and write at 250 of 20 bytes splits into
6 bytes at 250 and 14 bytes at 256. -/
theorem claim_c2_write_chunking :
    (∀ (tr : Nat → Bool) (chip : ChipInfo) (dst len a s : Nat),
        (a, s) ∈ (snor_write_model tr chip dst len).2 →
          0 < s ∧ a % 256 + s ≤ 256)
    ∧ (∀ dst len : Nat, tilesB dst len (writeChunks dst len) = true)
    ∧ (∀ dst len a s : Nat, (a, s) ∈ writeChunks dst len →
        s = min (dst + len - a) (256 - a % 256))
    ∧ (∀ dst len : Nat, ∀ p ∈ (writeChunks dst len).tail, p.1 % 256 = 0)
    ∧ writeChunks 250 20 = [(250, 6), (256, 14)] := by
  refine ⟨?_, ?_, ?_, ?_, by decide⟩
  · intro tr chip dst len a s h
    unfold snor_write_model at h
    by_cases h0 : len = 0
    · simp [h0] at h
    · rw [if_neg h0] at h
      by_cases h1 : chip.sector_size * chip.n_sectors < (dst + len) % 2^64
      · rw [if_pos h1] at h
        simp at h
      · rw [if_neg h1] at h
        exact snor_write_loop_noncross tr len 0 dst len (dst % 256) 0 (Or.inl rfl) a s h
  · intro dst len
    exact pageChunks_tiles len dst len (dst % 256) (Nat.le_refl _) (Nat.mod_lt dst (by omega))
  · intro dst len a s h
    exact pageChunks_size_eq_min len dst len (dst % 256) (Nat.le_refl _) rfl a s h
  · intro dst len p hp
    exact writeChunks_tail_aligned dst len p hp

/-- Witness for claim C2 at concrete input: the chunk (256, 14) is issued by
the successful write of 20 bytes at 250, and satisfies the boundary bound. -/
theorem claim_c2_witness :
    ((256, 14) ∈ (snor_write_model (fun _ => true) W25Q128BV 250 20).2)
      ∧ (0 < 14 ∧ 256 % 256 + 14 ≤ 256) :=
  ⟨by decide, claim_c2_write_chunking.1 (fun _ => true) W25Q128BV 250 20 256 14 (by decide)⟩

theorem snor_write_loop_first_fail (tr : Nat → Bool) :
    ∀ (i fuel i0 dst len page_offset retlen : Nat),
      (∀ j, j < i → tr (i0 + j) = true) → tr (i0 + i) = false →
      i < (pageChunks fuel dst len page_offset).length →
      2 ≤ ((pageChunks fuel dst len page_offset).getD i (0, 0)).2 →
      snor_write_loop tr fuel i0 dst len page_offset retlen
        = (retlen + sumSnd ((pageChunks fuel dst len page_offset).take i),
           (pageChunks fuel dst len page_offset).take (i+1)) := by
  intro i
  induction i with
  | zero =>
    intro fuel i0 dst len po retlen _ hfail hlt hsz
    rcases fuel with _ | fuel
    · simp [pageChunks] at hlt
    · by_cases hlen : len = 0
      · simp [pageChunks, hlen] at hlt
      · simp only [pageChunks, if_neg hlen] at hlt hsz ⊢
        simp only [List.getD_cons_zero] at hsz
        have hfail0 : tr i0 = false := by
          have := hfail
          simpa using this
        simp only [snor_write_loop, if_neg hlen, hfail0, Bool.false_eq_true, if_false]
        have hcond : (0 : Nat) < 1 ∧ 1 < min len (256 - po) := by
          constructor
          · omega
          · omega
        rw [if_pos (by omega : (0:Nat) < 1), if_pos hcond]
        simp [sumSnd]
  | succ i ih =>
    intro fuel i0 dst len po retlen hall hfail hlt hsz
    rcases fuel with _ | fuel
    · simp [pageChunks] at hlt
    · by_cases hlen : len = 0
      · simp [pageChunks, hlen] at hlt
      · have hok : tr i0 = true := by
          have := hall 0 (by omega)
          simpa using this
        simp only [pageChunks, if_neg hlen] at hlt hsz ⊢
        simp only [List.length_cons] at hlt
        simp only [List.getD_cons_succ] at hsz
        have hih := ih fuel (i0 + 1) (dst + min len (256 - po)) (len - min len (256 - po)) 0
          (retlen + min len (256 - po))
          (by
            intro j hj
            have := hall (j + 1) (by omega)
            have harith : i0 + (j + 1) = i0 + 1 + j := by omega
            rw [harith] at this
            exact this)
          (by
            have harith : i0 + (i + 1) = i0 + 1 + i := by omega
            rw [harith] at hfail
            exact hfail)
          (by omega) hsz
        simp only [snor_write_loop, if_neg hlen, hok, if_true]
        have hcond : ¬ (0 < min len (256 - po) ∧
            min len (256 - po) < min len (256 - po)) := by
          intro h
          exact absurd h.2 (Nat.lt_irrefl _)
        rw [if_neg hcond]
        have hret : (if 0 < min len (256 - po) then retlen + min len (256 - po) else retlen)
            = retlen + min len (256 - po) := by
          split <;> omega
        rw [hret, hih]
        simp only [List.take_succ_cons, sumSnd]
        rw [Nat.add_assoc]

/-- Claim C6, amended: if the transport fails on a chunk whose requested size
is at least 2 bytes, snor_write aborts at that chunk — the issued page
programs are exactly the chunks up to and including the failing one — and
returns the bytes written by the chunks completed before it, with no retry.
(The counterexample shows a failing 1-byte chunk is misdetected as success:
the loop continues past it and counts its byte as written, because the code
encodes transport failure as rc = 1, indistinguishable from a successful
1-byte program.) -/
theorem claim_c6_short_write_abort :
    ∀ (tr : Nat → Bool) (chip : ChipInfo) (dst len i : Nat),
      0 < len → dst + len < 2^64 →
      dst + len ≤ chip.sector_size * chip.n_sectors →
      (∀ j, j < i → tr j = true) → tr i = false →
      i < (writeChunks dst len).length →
      2 ≤ ((writeChunks dst len).getD i (0, 0)).2 →
      snor_write_model tr chip dst len
        = ((sumSnd ((writeChunks dst len).take i) : Int),
           (writeChunks dst len).take (i+1)) := by
  intro tr chip dst len i hlen hlt hcap hall hfail hilen hisz
  unfold snor_write_model
  rw [if_neg (by omega)]
  have hmod : (dst + len) % 2^64 = dst + len := Nat.mod_eq_of_lt hlt
  rw [if_neg (by rw [hmod]; omega)]
  have h := snor_write_loop_first_fail tr i len 0 dst len (dst % 256) 0
    (by intro j hj; simpa using hall j hj) (by simpa using hfail) hilen hisz
  unfold writeChunks
  rw [h]
  simp

/-- Claim C6, counterexample: with a transport that always fails, writing 2
bytes at offset 255 (chunks of size 1 at 255 and 1 at 256) issues a second
page program after the failed first chunk and returns 2, not the 0 bytes
completed before the failure — so the claim as stated is false for failing
chunks of size 1. -/
theorem claim_c6_counterexample :
    snor_write_model (fun _ => false) W25Q128BV 255 2 = (2, [(255, 1), (256, 1)])
      ∧ ((2 : Int) ≠ 0) := by
  constructor
  · decide
  · decide

/-- Witness for the amended claim C6: all-failing transport, 300 bytes at 0;
the first chunk (0, 256) fails, the call returns 0 with exactly that one
page program issued. -/
theorem claim_c6_witness :
    snor_write_model (fun _ => false) W25Q128BV 0 300 = (0, [(0, 256)]) := by
  have h := claim_c6_short_write_abort (fun _ => false) W25Q128BV 0 300 0
    (by decide) (by decide) (by decide)
    (by intro j hj; exact absurd hj (Nat.not_lt_zero j)) rfl (by decide) (by decide)
  rw [h]
  decide

/-- C unsigned long (64-bit) subtraction: (a - b) mod 2^64 for a, b < 2^64. -/
def sub64 (a b : Nat) : Nat := (a + 2^64 - b % 2^64) % 2^64

/-- The range of the address bytes snor_erase_sector actually transmits
(spi_nor_flash.c:262-266): four bytes of offset when addr4b, else three. -/
def addrSpace (chip : ChipInfo) : Nat := if chip.addr4b then 2^32 else 2^24

/-- The non-status device commands the driver issues (status-register reads
and writes of the polling and unprotect paths are kept out of this
alphabet). -/
inductive SnorCmd where
  | wren
  | wrdi
  | unprot
  | bulkErase
  | enter4b
  | exit4b
  | sectorErase (addr : Nat)
deriving DecidableEq

/-- Is a command a sector erase? -/
def isSectorErase : SnorCmd → Bool
  | SnorCmd.sectorErase _ => true
  | _ => false

/-- The commands of one successful snor_erase_sector call
(spi_nor_flash.c:244-276): optional 4-byte-mode entry, write enable, the
0xD8 sector erase with its 3 or 4 transmitted address bytes (the address on
the wire is offset mod 2^24 resp. 2^32), optional 4-byte-mode exit. -/
def sectorCmds (chip : ChipInfo) (offs : Nat) : List SnorCmd :=
  (if chip.addr4b then [SnorCmd.enter4b] else []) ++
    [SnorCmd.wren, SnorCmd.sectorErase (offs % addrSpace chip)] ++
    (if chip.addr4b then [SnorCmd.exit4b] else [])

/-- One iteration of snor_erase's while loop on its (offs, len) state
(spi_nor_flash.c:849-850): offs += sector_size; len -= sector_size, both in
unsigned long arithmetic. -/
def eraseStep (ss : Nat) (st : Nat × Nat) : Nat × Nat :=
  ((st.1 + ss) % 2^64, sub64 st.2 ss)

/-- n iterations of the erase loop state update. -/
def eraseIter (ss : Nat) : Nat → Nat × Nat → Nat × Nat
  | 0, st => st
  | n+1, st => eraseIter ss n (eraseStep ss st)

/-- The while loop of snor_erase (spi_nor_flash.c:844-857) in the model
where snor_erase_sector always succeeds: first component none when the fuel
ran out with the loop still running, some 0 when the loop exited; second
component the commands issued so far. -/
def snor_erase_loop (chip : ChipInfo) : Nat → Nat → Nat → Option Int × List SnorCmd
  | 0, _, _ => (none, [])
  | fuel+1, offs, len =>
    if len = 0 then (some 0, [])
    else
      let st := eraseStep chip.sector_size (offs, len)
      let r := snor_erase_loop chip fuel st.1 st.2
      (r.1, sectorCmds chip offs ++ r.2)

/-- The commands of n successive successful sector erases starting at offs
with stride sector_size, in the no-wrap regime. -/
def sectorTraceSpec (chip : ChipInfo) : Nat → Nat → List SnorCmd
  | _, 0 => []
  | offs, n+1 => sectorCmds chip offs ++ sectorTraceSpec chip (offs + chip.sector_size) n

/-- snor_erase (spi_nor_flash.c:824-862): len == 0 is rejected with -1
before any command; offs == 0 with len == capacity short-circuits to
full_erase_chip (lines 278-298: write enable, unprotect, bulk erase,
write disable); otherwise unprotect once and run the sector loop. -/
def snor_erase_model (fuel : Nat) (chip : ChipInfo) (offs len : Nat) :
    Option Int × List SnorCmd :=
  if len = 0 then (some (-1), [])
  else if offs = 0 ∧ len = chip.sector_size * chip.n_sectors then
    (some 0, [SnorCmd.wren, SnorCmd.unprot, SnorCmd.bulkErase, SnorCmd.wrdi])
  else
    let r := snor_erase_loop chip fuel offs len
    (r.1, SnorCmd.unprot :: r.2)

theorem bulk_not_mem_sectorCmds (chip : ChipInfo) (offs : Nat) :
    SnorCmd.bulkErase ∉ sectorCmds chip offs := by
  unfold sectorCmds
  by_cases h : chip.addr4b <;> simp [h]

theorem snor_erase_loop_no_bulk (chip : ChipInfo) :
    ∀ (fuel offs len : Nat),
      SnorCmd.bulkErase ∉ (snor_erase_loop chip fuel offs len).2 := by
  intro fuel
  induction fuel with
  | zero => intro offs len h; simp [snor_erase_loop] at h
  | succ fuel ih =>
    intro offs len h
    by_cases hlen : len = 0
    · simp [snor_erase_loop, hlen] at h
    · simp only [snor_erase_loop, if_neg hlen, List.mem_append] at h
      rcases h with h | h
      · exact bulk_not_mem_sectorCmds chip offs h
      · exact ih _ _ h

theorem snor_erase_loop_fst (chip : ChipInfo) :
    ∀ (fuel offs len : Nat),
      (snor_erase_loop chip fuel offs len).1 = none
        ∨ (snor_erase_loop chip fuel offs len).1 = some 0 := by
  intro fuel
  induction fuel with
  | zero => intro offs len; left; rfl
  | succ fuel ih =>
    intro offs len
    by_cases hlen : len = 0
    · right; simp [snor_erase_loop, hlen]
    · simp only [snor_erase_loop, if_neg hlen]
      exact ih _ _

theorem snor_erase_loop_aligned (chip : ChipInfo) :
    ∀ (m offs : Nat), 0 < chip.sector_size →
      offs + m * chip.sector_size < 2^64 →
      snor_erase_loop chip (m+1) offs (m * chip.sector_size)
        = (some 0, sectorTraceSpec chip offs m) := by
  intro m
  induction m with
  | zero =>
    intro offs _ _
    simp [snor_erase_loop, sectorTraceSpec]
  | succ m ih =>
    intro offs hss hwrap
    have hsm : (m+1) * chip.sector_size = m * chip.sector_size + chip.sector_size := by
      ring
    have hlen : (m+1) * chip.sector_size ≠ 0 := by omega
    have hofs : (offs + chip.sector_size) % 2^64 = offs + chip.sector_size :=
      Nat.mod_eq_of_lt (by omega)
    have hsub : sub64 ((m+1) * chip.sector_size) chip.sector_size
        = m * chip.sector_size := by
      unfold sub64
      rw [Nat.mod_eq_of_lt (by omega : chip.sector_size < 2^64)]
      omega
    rw [snor_erase_loop, if_neg hlen]
    simp only [eraseStep, hofs, hsub]
    rw [ih (offs + chip.sector_size) hss (by omega)]
    rfl

theorem snor_erase_loop_running (chip : ChipInfo) :
    ∀ (n offs len : Nat), 0 < chip.sector_size →
      (∀ j, j < n → j * chip.sector_size < len) →
      offs + n * chip.sector_size < 2^64 → len < 2^64 →
      snor_erase_loop chip n offs len = (none, sectorTraceSpec chip offs n) := by
  intro n
  induction n with
  | zero => intro offs len _ _ _ _; rfl
  | succ n ih =>
    intro offs len hss hrun hwrap hlen64
    have hsm : (n+1) * chip.sector_size = n * chip.sector_size + chip.sector_size := by
      ring
    have hlen : len ≠ 0 := by
      have := hrun 0 (by omega)
      omega
    have hofs : (offs + chip.sector_size) % 2^64 = offs + chip.sector_size :=
      Nat.mod_eq_of_lt (by omega)
    rcases n with _ | n
    · rw [snor_erase_loop, if_neg hlen]
      rfl
    · have hsm2 : (n+2) * chip.sector_size
          = (n+1) * chip.sector_size + chip.sector_size := by ring
      have hssle : chip.sector_size ≤ len := by
        have h1 := hrun 1 (by omega)
        have h2 : (1:Nat) * chip.sector_size = chip.sector_size := by ring
        omega
      have hsub : sub64 len chip.sector_size = len - chip.sector_size := by
        unfold sub64
        rw [Nat.mod_eq_of_lt (by omega : chip.sector_size < 2^64)]
        omega
      rw [snor_erase_loop, if_neg hlen]
      simp only [eraseStep, hofs, hsub]
      rw [ih (offs + chip.sector_size) (len - chip.sector_size) hss
        (by
          intro j hj
          have h1 := hrun (j+1) (by omega)
          have h2 : (j+1) * chip.sector_size = j * chip.sector_size + chip.sector_size := by
            ring
          omega)
        (by omega)
        (by omega)]
      rfl

theorem eraseIter_succ_out (ss : Nat) :
    ∀ (n : Nat) (st : Nat × Nat),
      eraseIter ss (n+1) st = eraseStep ss (eraseIter ss n st) := by
  intro n
  induction n with
  | zero => intro st; rfl
  | succ n ih => intro st; exact ih (eraseStep ss st)

theorem eraseIter_no_wrap (ss : Nat) :
    ∀ (j offs len : Nat), j * ss ≤ len → offs + len < 2^64 → ss < 2^64 →
      eraseIter ss j (offs, len) = (offs + j * ss, len - j * ss) := by
  intro j
  induction j with
  | zero => intro offs len _ _ _; simp [eraseIter]
  | succ j ih =>
    intro offs len hle hwrap hss64
    have hsm : (j+1) * ss = j * ss + ss := by ring
    show eraseIter ss j (eraseStep ss (offs, len)) = _
    have hofs : (offs + ss) % 2^64 = offs + ss := Nat.mod_eq_of_lt (by omega)
    have hsub : sub64 len ss = len - ss := by
      unfold sub64
      rw [Nat.mod_eq_of_lt hss64]
      omega
    simp only [eraseStep, hofs, hsub]
    rw [ih (offs + ss) (len - ss) (by omega) (by omega) hss64]
    have e1 : offs + ss + j * ss = offs + (j+1) * ss := by omega
    have e2 : len - ss - j * ss = len - (j+1) * ss := by omega
    rw [e1, e2]

/-- Claim C5: in the sector-erase path every iteration advances the offset
and decrements the remaining length by exactly one sector_size — so for a
length that is no multiple of sector_size all len / sector_size + 1
iterations run on exact-stride states, the erase at iteration
len / sector_size covers past the requested end, and the following
subtraction wraps the unsigned remaining-length counter around to
2^64 - (sector_size - len mod sector_size), which is nonzero, so the loop
does not stop there. -/
theorem claim_c5_erase_stride_underflow (chip : ChipInfo) (offs len : Nat)
    (hss : 0 < chip.sector_size) (hss64 : chip.sector_size < 2^64)
    (hlen : 0 < len) (hmod : len % chip.sector_size ≠ 0)
    (hwrap : offs + len + chip.sector_size < 2^64) :
    (∀ j, j ≤ len / chip.sector_size →
        eraseIter chip.sector_size j (offs, len)
          = (offs + j * chip.sector_size, len - j * chip.sector_size)
        ∧ 0 < len - j * chip.sector_size)
    ∧ (eraseIter chip.sector_size (len / chip.sector_size + 1) (offs, len)).2
        = 2^64 - (chip.sector_size - len % chip.sector_size)
    ∧ (eraseIter chip.sector_size (len / chip.sector_size + 1) (offs, len)).2 ≠ 0
    ∧ snor_erase_loop chip (len / chip.sector_size + 1) offs len
        = (none, sectorTraceSpec chip offs (len / chip.sector_size + 1))
    ∧ offs + len < offs + (len / chip.sector_size) * chip.sector_size
        + chip.sector_size := by
  have hdm := Nat.div_add_mod len chip.sector_size
  have hmlt : len % chip.sector_size < chip.sector_size := Nat.mod_lt _ hss
  have hcomm : (len / chip.sector_size) * chip.sector_size
      = chip.sector_size * (len / chip.sector_size) := by ring
  have hpart1 : ∀ j, j ≤ len / chip.sector_size →
      eraseIter chip.sector_size j (offs, len)
        = (offs + j * chip.sector_size, len - j * chip.sector_size)
      ∧ 0 < len - j * chip.sector_size := by
    intro j hj
    have hjk : j * chip.sector_size ≤ (len / chip.sector_size) * chip.sector_size :=
      Nat.mul_le_mul_right chip.sector_size hj
    refine ⟨eraseIter_no_wrap chip.sector_size j offs len (by omega) (by omega) hss64, ?_⟩
    omega
  have hk := hpart1 (len / chip.sector_size) (Nat.le_refl _)
  have hpart2 : (eraseIter chip.sector_size (len / chip.sector_size + 1) (offs, len)).2
      = 2^64 - (chip.sector_size - len % chip.sector_size) := by
    rw [eraseIter_succ_out, hk.1]
    have hrem : len - (len / chip.sector_size) * chip.sector_size
        = len % chip.sector_size := by omega
    simp only [eraseStep, hrem]
    unfold sub64
    rw [Nat.mod_eq_of_lt hss64]
    rw [Nat.mod_eq_of_lt (by omega)]
    omega
  refine ⟨hpart1, hpart2, by rw [hpart2]; omega, ?_, by omega⟩
  apply snor_erase_loop_running chip (len / chip.sector_size + 1) offs len hss
  · intro j hj
    have hjk : j * chip.sector_size ≤ (len / chip.sector_size) * chip.sector_size :=
      Nat.mul_le_mul_right chip.sector_size (by omega)
    omega
  · have hsm : (len / chip.sector_size + 1) * chip.sector_size
        = (len / chip.sector_size) * chip.sector_size + chip.sector_size := by ring
    omega
  · omega

/-- Witness for claim C5: 64 KiB sectors, offset 0, length 100 (one partial
sector): the single erase iteration runs, and the remaining-length counter
wraps to 2^64 - (65536 - 100). -/
theorem claim_c5_witness :
    (eraseIter 65536 1 (0, 100)).2 = 2^64 - (65536 - 100 % 65536)
    ∧ snor_erase_loop W25Q128BV 1 0 100 = (none, sectorTraceSpec W25Q128BV 0 1) := by
  have h := claim_c5_erase_stride_underflow W25Q128BV 0 100 (by decide) (by decide)
    (by decide) (by decide) (by decide)
  exact ⟨h.2.1, h.2.2.2.1⟩

/-- Claim C3: erase with offset 0 and length equal to the chip capacity
takes the bulk-erase path — exactly one bulk-erase command, after write
enable and unprotect, and no sector erase; for every other length > 0 the
bulk-erase opcode never appears in the issued commands. -/
theorem claim_c3_full_chip_erase :
    ∀ (fuel : Nat) (chip : ChipInfo) (offs len : Nat), 0 < len →
      ((offs = 0 ∧ len = chip.sector_size * chip.n_sectors) →
        snor_erase_model fuel chip offs len
          = (some 0, [SnorCmd.wren, SnorCmd.unprot, SnorCmd.bulkErase, SnorCmd.wrdi])
        ∧ (snor_erase_model fuel chip offs len).2.countP
            (fun c => decide (c = SnorCmd.bulkErase)) = 1
        ∧ (snor_erase_model fuel chip offs len).2.countP isSectorErase = 0)
      ∧ (¬(offs = 0 ∧ len = chip.sector_size * chip.n_sectors) →
          SnorCmd.bulkErase ∉ (snor_erase_model fuel chip offs len).2) := by
  intro fuel chip offs len hlen
  constructor
  · intro hfull
    have heq : snor_erase_model fuel chip offs len
        = (some 0, [SnorCmd.wren, SnorCmd.unprot, SnorCmd.bulkErase, SnorCmd.wrdi]) := by
      unfold snor_erase_model
      rw [if_neg (by omega), if_pos hfull]
    refine ⟨heq, ?_, ?_⟩
    · rw [heq]
      decide
    · rw [heq]
      decide
  · intro hother
    unfold snor_erase_model
    rw [if_neg (by omega), if_neg hother]
    intro h
    simp only [List.mem_cons] at h
    rcases h with h | h
    · exact SnorCmd.noConfusion h
    · exact snor_erase_loop_no_bulk chip fuel offs len h

/-- Witness for claim C3: full-chip erase of the 16 MiB W25Q128BV issues the
bulk-erase trace, and a one-sector erase elsewhere never issues bulk
erase. -/
theorem claim_c3_witness :
    snor_erase_model 1 W25Q128BV 0 (2^24)
      = (some 0, [SnorCmd.wren, SnorCmd.unprot, SnorCmd.bulkErase, SnorCmd.wrdi])
    ∧ SnorCmd.bulkErase ∉ (snor_erase_model 1 W25Q128BV 65536 65536).2 := by
  constructor
  · exact ((claim_c3_full_chip_erase 1 W25Q128BV 0 (2^24) (by decide)).1
      ⟨rfl, by decide⟩).1
  · exact (claim_c3_full_chip_erase 1 W25Q128BV 65536 65536 (by decide)).2 (by decide)

/-- Claim C10: snor_erase has no capacity bounds check.  In the happy-wait
model the sector-erase path never returns an error for any offset and any
positive non-full-chip length; with sufficient fuel and a sector-aligned
length the loop completes with return 0 after issuing one sector erase per
sector starting at the given offset — in particular, for an offset at or
beyond capacity (within the transmitted address range) it issues a sector
erase at that out-of-bounds address, unlike snor_write which rejects
capacity overrun. -/
theorem claim_c10_erase_no_bounds_check :
    (∀ (fuel : Nat) (chip : ChipInfo) (offs len : Nat), 0 < len →
        ¬(offs = 0 ∧ len = chip.sector_size * chip.n_sectors) →
        (snor_erase_model fuel chip offs len).1 = none
          ∨ (snor_erase_model fuel chip offs len).1 = some 0)
    ∧ (∀ (chip : ChipInfo) (offs len : Nat),
        0 < chip.sector_size → 0 < len → len % chip.sector_size = 0 →
        ¬(offs = 0 ∧ len = chip.sector_size * chip.n_sectors) →
        offs + len ≤ addrSpace chip →
        snor_erase_model (len / chip.sector_size + 1) chip offs len
          = (some 0, SnorCmd.unprot :: sectorTraceSpec chip offs (len / chip.sector_size))
        ∧ (chip.sector_size * chip.n_sectors ≤ offs →
            SnorCmd.sectorErase offs
              ∈ (snor_erase_model (len / chip.sector_size + 1) chip offs len).2)) := by
  constructor
  · intro fuel chip offs len hlen hother
    unfold snor_erase_model
    rw [if_neg (by omega), if_neg hother]
    exact snor_erase_loop_fst chip fuel offs len
  · intro chip offs len hss hlen hmod hother hbound
    have hspace : addrSpace chip < 2^64 := by
      unfold addrSpace
      split <;> norm_num
    have hdm := Nat.div_add_mod len chip.sector_size
    have hcomm : (len / chip.sector_size) * chip.sector_size
        = chip.sector_size * (len / chip.sector_size) := by ring
    have hmul : (len / chip.sector_size) * chip.sector_size = len := by omega
    have heq : snor_erase_model (len / chip.sector_size + 1) chip offs len
        = (some 0, SnorCmd.unprot :: sectorTraceSpec chip offs (len / chip.sector_size)) := by
      unfold snor_erase_model
      rw [if_neg (by omega), if_neg hother]
      have hloop := snor_erase_loop_aligned chip (len / chip.sector_size) offs hss
        (by omega)
      rw [hmul] at hloop
      rw [hloop]
    refine ⟨heq, ?_⟩
    intro hcapoffs
    rw [heq]
    have hm1 : 0 < len / chip.sector_size := by
      rcases Nat.eq_zero_or_pos (len / chip.sector_size) with h | h
      · rw [h] at hmul
        omega
      · exact h
    have hofsmod : offs % addrSpace chip = offs := Nat.mod_eq_of_lt (by omega)
    have hmem : SnorCmd.sectorErase offs ∈ sectorCmds chip offs := by
      unfold sectorCmds
      rw [hofsmod]
      by_cases h : chip.addr4b <;> simp [h]
    rcases Nat.exists_eq_add_of_lt hm1 with ⟨m, hm⟩
    rw [show len / chip.sector_size = m + 1 by omega]
    simp only [sectorTraceSpec, List.mem_cons, List.mem_append]
    right
    left
    exact hmem

/-- Witness for claim C10: a 1 MiB chip (W25P80 geometry), erase of one
sector at offset 2^20 = capacity: no error, and the out-of-bounds sector
erase at address 1048576 is issued. -/
theorem claim_c10_witness :
    snor_erase_model 2 ⟨"W25P80", 0xef, 0x20140000, 65536, 16, false, 270, 360⟩
        1048576 65536
      = (some 0, [SnorCmd.unprot, SnorCmd.wren, SnorCmd.sectorErase 1048576])
    ∧ SnorCmd.sectorErase 1048576
        ∈ (snor_erase_model 2 ⟨"W25P80", 0xef, 0x20140000, 65536, 16, false, 270, 360⟩
            1048576 65536).2 := by
  have h := claim_c10_erase_no_bounds_check.2
    ⟨"W25P80", 0xef, 0x20140000, 65536, 16, false, 270, 360⟩ 1048576 65536
    (by decide) (by decide) (by decide) (by decide) (by decide)
  constructor
  · exact h.1.trans (by decide)
  · exact h.2 (by decide)

/-- The while loop of snor_read (spi_nor_flash.c:884-934) as its sequence of
bus read transactions (address, size), on the success path: per iteration
data_offset = physical_read_addr mod sector_size; the boundary test
data_offset + remain_len < sector_size adds two u32 values, so the sum is
reduced mod 2^32 (line 903) — when it wraps, the wrapped value is below
sector_size and the whole remainder is read in one transaction.  When the
test holds the remainder is read in one transaction and the loop ends;
otherwise sector_size - data_offset bytes are read and the u32 address and
the remainder advance by that amount (a wrapped sum always takes the first
branch, since remain_len < 2^32 and data_offset < sector_size force
data_offset + remain_len - 2^32 < data_offset, so the subtractions here
never underflow).  fuel ≥ remain_len suffices, every iteration consuming at
least one byte. -/
def snor_read_chunks_loop (chip : ChipInfo) : Nat → Nat → Nat → List (Nat × Nat)
  | 0, _, _ => []
  | fuel+1, read_addr, remain_len =>
    if remain_len = 0 then []
    else
      if (read_addr % chip.sector_size + remain_len) % 2^32 < chip.sector_size then
        [(read_addr, remain_len)]
      else
        (read_addr, chip.sector_size - read_addr % chip.sector_size) ::
          snor_read_chunks_loop chip fuel
            ((read_addr + (chip.sector_size - read_addr % chip.sector_size)) % 2^32)
            (remain_len - (chip.sector_size - read_addr % chip.sector_size))

/-- The transactions of snor_read src len: the C locals read_addr and
remain_len are u32, truncating the unsigned long arguments. -/
def snor_read_chunks (chip : ChipInfo) (src len : Nat) : List (Nat × Nat) :=
  snor_read_chunks_loop chip len (src % 2^32) (len % 2^32)

/-- snor_read (spi_nor_flash.c:864-939) on the success path: length 0
returns 0 at once with no transaction (line 871-872, before the ready
wait); otherwise the chunked transactions run and len is returned. -/
def snor_read_model (chip : ChipInfo) (src len : Nat) : Int × List (Nat × Nat) :=
  if len = 0 then (0, [])
  else ((len : Int), snor_read_chunks chip src len)

theorem snor_read_chunks_loop_spec (chip : ChipInfo) :
    ∀ (fuel addr remain : Nat), 0 < chip.sector_size → remain ≤ fuel →
      addr + remain < 2^32 →
      tilesB addr remain (snor_read_chunks_loop chip fuel addr remain) = true
      ∧ ∀ a s, (a, s) ∈ snor_read_chunks_loop chip fuel addr remain →
          s = min (addr + remain - a) (chip.sector_size - a % chip.sector_size)
          ∧ a % chip.sector_size + s ≤ chip.sector_size := by
  intro fuel
  induction fuel with
  | zero =>
    intro addr remain _ hle _
    have : remain = 0 := by omega
    subst this
    exact ⟨by simp [snor_read_chunks_loop, tilesB], by
      intro a s h
      simp [snor_read_chunks_loop] at h⟩
  | succ fuel ih =>
    intro addr remain hss hle hbound
    by_cases h0 : remain = 0
    · subst h0
      exact ⟨by simp [snor_read_chunks_loop, tilesB], by
        intro a s h
        simp [snor_read_chunks_loop] at h⟩
    · have hd : addr % chip.sector_size < chip.sector_size := Nat.mod_lt addr hss
      have hdle : addr % chip.sector_size ≤ addr := Nat.mod_le addr chip.sector_size
      have hmodsum : (addr % chip.sector_size + remain) % 2^32
          = addr % chip.sector_size + remain := Nat.mod_eq_of_lt (by omega)
      by_cases hc : addr % chip.sector_size + remain < chip.sector_size
      · constructor
        · simp only [snor_read_chunks_loop, if_neg h0, hmodsum, if_pos hc, tilesB]
          have h1 : remain - remain = 0 := by omega
          simp [h1]
          omega
        · intro a s h
          simp only [snor_read_chunks_loop, if_neg h0, hmodsum, if_pos hc,
            List.mem_singleton] at h
          have ha : a = addr ∧ s = remain :=
            ⟨congrArg Prod.fst h, congrArg Prod.snd h⟩
          rcases ha with ⟨ha, hs⟩
          subst ha
          subst hs
          constructor
          · omega
          · omega
      · have hcle : chip.sector_size - addr % chip.sector_size ≤ remain := by omega
        have hcpos : 0 < chip.sector_size - addr % chip.sector_size := by omega
        have hwrapc : addr + (chip.sector_size - addr % chip.sector_size) < 2^32 := by
          omega
        have hmod : (addr + (chip.sector_size - addr % chip.sector_size)) % 2^32
            = addr + (chip.sector_size - addr % chip.sector_size) :=
          Nat.mod_eq_of_lt hwrapc
        have hrec := ih (addr + (chip.sector_size - addr % chip.sector_size))
          (remain - (chip.sector_size - addr % chip.sector_size)) hss
          (by omega) (by omega)
        constructor
        · simp only [snor_read_chunks_loop, if_neg h0, hmodsum, if_neg hc, tilesB, hmod]
          rw [hrec.1]
          simp
          omega
        · intro a s h
          simp only [snor_read_chunks_loop, if_neg h0, hmodsum, if_neg hc, hmod,
            List.mem_cons] at h
          rcases h with h | h
          · have ha : a = addr ∧ s = chip.sector_size - addr % chip.sector_size :=
              ⟨congrArg Prod.fst h, congrArg Prod.snd h⟩
            rcases ha with ⟨ha, hs⟩
            subst ha
            subst hs
            constructor
            · omega
            · omega
          · have := hrec.2 a s h
            have hsum : addr + (chip.sector_size - addr % chip.sector_size)
                + (remain - (chip.sector_size - addr % chip.sector_size))
                = addr + remain := by omega
            rw [hsum] at this
            exact this

/-- Claim C7, counterexample: on 64 KiB sectors, reading len = 2^32 - 100
bytes from address 100 makes the u32 sum data_offset + remain_len wrap to
0 < sector_size, so snor_read issues the whole remainder as one transaction
starting at 100 — a transaction extending far past the end of the sector
containing its starting address, against the claim as stated for every
(from, length). -/
theorem claim_c7_counterexample :
    snor_read_chunks W25Q128BV 100 (2^32 - 100) = [(100, 2^32 - 100)]
    ∧ W25Q128BV.sector_size < 100 % W25Q128BV.sector_size + (2^32 - 100) := by
  constructor
  · decide
  · decide

/-- Claim C7, amended: for from + len strictly below 2^32 (the wrap point
of the u32 boundary test), each snor_read transaction transfers exactly
min(remaining, sector_size - (address mod sector_size)) bytes, no
transaction extends past the end of the sector containing its starting
address, and the transactions exactly tile [src, src+len); at
from + len = 2^32 the wrapped test reads the whole remainder in a single
cross-sector transaction (see the counterexample). -/
theorem claim_c7_read_chunking :
    ∀ (chip : ChipInfo) (src len : Nat), 0 < chip.sector_size →
      len < 2^32 → src + len < 2^32 →
      tilesB src len (snor_read_chunks chip src len) = true
      ∧ ∀ a s, (a, s) ∈ snor_read_chunks chip src len →
          s = min (src + len - a) (chip.sector_size - a % chip.sector_size)
          ∧ a % chip.sector_size + s ≤ chip.sector_size := by
  intro chip src len hss hlen hbound
  by_cases h0 : len = 0
  · subst h0
    refine ⟨?_, ?_⟩
    · show tilesB src 0 (snor_read_chunks_loop chip 0 (src % 2^32) (0 % 2^32)) = true
      simp [snor_read_chunks_loop, tilesB]
    · intro a s h
      simp [snor_read_chunks, snor_read_chunks_loop] at h
  · have hsrc : src % 2^32 = src := Nat.mod_eq_of_lt (by omega)
    have hlenm : len % 2^32 = len := Nat.mod_eq_of_lt hlen
    have h := snor_read_chunks_loop_spec chip len src len hss (Nat.le_refl _) hbound
    unfold snor_read_chunks
    rw [hsrc, hlenm]
    exact h

/-- Witness for the amended claim C7: reading 10 bytes at 65530 on 64 KiB
sectors splits at the sector boundary; the first transaction is 6 bytes,
within its sector. -/
theorem claim_c7_witness :
    tilesB 65530 10 (snor_read_chunks W25Q128BV 65530 10) = true
    ∧ ((65530, 6) ∈ snor_read_chunks W25Q128BV 65530 10
        ∧ 6 = min (65530 + 10 - 65530)
            (W25Q128BV.sector_size - 65530 % W25Q128BV.sector_size)
        ∧ 65530 % W25Q128BV.sector_size + 6 ≤ W25Q128BV.sector_size) := by
  have h := claim_c7_read_chunking W25Q128BV 65530 10 (by decide) (by decide) (by decide)
  exact ⟨h.1, by decide, h.2 65530 6 (by decide)⟩

/-- The polling loop of snor_wait_ready (spi_nor_flash.c:141-160), the
status reads given by the oracle sr (none = snor_read_sr failed, some v =
byte read): for count in [0, bound): a failed read breaks out of the loop
and the function returns -1; a successful read with none of WIP (1),
WEL (2), EPE (0x20) set returns 0; otherwise delay and poll again;
an exhausted bound returns -1.  The loop touches the device only through
these status reads. -/
def waitReadyGo (sr : Nat → Option Nat) : Nat → Nat → Int
  | _, 0 => -1
  | i, fuel+1 =>
    match sr i with
    | none => -1
    | some v => if v &&& 0x23 = 0 then 0 else waitReadyGo sr (i+1) fuel

/-- snor_wait_ready: the loop bound is (sleep_ms + 1) * 1000 polls. -/
def snor_wait_ready_model (sr : Nat → Option Nat) (sleep_ms : Nat) : Int :=
  waitReadyGo sr 0 ((sleep_ms + 1) * 1000)

theorem waitReadyGo_spec (sr : Nat → Option Nat) :
    ∀ (fuel i : Nat),
      (waitReadyGo sr i fuel = 0 ↔
        ∃ d, d < fuel
          ∧ (∀ e, e < d → ∃ v, sr (i + e) = some v ∧ v &&& 0x23 ≠ 0)
          ∧ (∃ v, sr (i + d) = some v ∧ v &&& 0x23 = 0))
      ∧ (waitReadyGo sr i fuel = 0 ∨ waitReadyGo sr i fuel = -1) := by
  intro fuel
  induction fuel with
  | zero =>
    intro i
    constructor
    · constructor
      · intro h
        simp [waitReadyGo] at h
      · intro h
        rcases h with ⟨d, hd, _⟩
        omega
    · right
      rfl
  | succ fuel ih =>
    intro i
    rcases hsr : sr i with _ | v
    · constructor
      · constructor
        · intro h
          rw [waitReadyGo, hsr] at h
          simp at h
        · intro h
          rcases h with ⟨d, _, hbusy, v, hv, _⟩
          rcases d with _ | d
          · rw [Nat.add_zero, hsr] at hv
            exact Option.noConfusion hv
          · rcases hbusy 0 (by omega) with ⟨v0, hv0, _⟩
            rw [Nat.add_zero, hsr] at hv0
            exact Option.noConfusion hv0
      · right
        rw [waitReadyGo, hsr]
    · by_cases hv : v &&& 0x23 = 0
      · constructor
        · constructor
          · intro _
            exact ⟨0, by omega, by omega, v, by rw [Nat.add_zero]; exact hsr, hv⟩
          · intro _
            rw [waitReadyGo, hsr]
            simp [hv]
        · left
          rw [waitReadyGo, hsr]
          simp [hv]
      · have hgo : waitReadyGo sr i (fuel+1) = waitReadyGo sr (i+1) fuel := by
          rw [waitReadyGo, hsr]
          simp [hv]
        constructor
        · rw [hgo, (ih (i+1)).1]
          constructor
          · intro h
            rcases h with ⟨d, hd, hbusy, w, hw, hwclear⟩
            refine ⟨d + 1, by omega, ?_, w, ?_, hwclear⟩
            · intro e he
              rcases e with _ | e
              · exact ⟨v, by rw [Nat.add_zero]; exact hsr, hv⟩
              · have := hbusy e (by omega)
                have harith : i + 1 + e = i + (e + 1) := by omega
                rw [harith] at this
                exact this
            · have harith : i + 1 + d = i + (d + 1) := by omega
              rw [harith] at hw
              exact hw
          · intro h
            rcases h with ⟨d, hd, hbusy, w, hw, hwclear⟩
            rcases d with _ | d
            · rw [Nat.add_zero, hsr] at hw
              have : v = w := Option.some.inj hw
              subst this
              exact absurd hwclear hv
            · refine ⟨d, by omega, ?_, w, ?_, hwclear⟩
              · intro e he
                have := hbusy (e + 1) (by omega)
                have harith : i + (e + 1) = i + 1 + e := by omega
                rw [harith] at this
                exact this
              · have harith : i + (d + 1) = i + 1 + d := by omega
                rw [harith] at hw
                exact hw
        · rw [hgo]
          exact (ih (i+1)).2

/-- Claim C9: snor_wait_ready returns 0 exactly when, within the bound of
(sleep_ms + 1) * 1000 polls, some status read succeeds with WIP, WEL and
EPE (mask 0x23) all clear, every earlier poll having read busy
successfully; a failed status read or an exhausted bound yields -1, the
only other return value.  The model consumes only the status-read oracle:
the loop performs no device command besides the repeated status reads. -/
theorem claim_c9_wait_ready :
    ∀ (sr : Nat → Option Nat) (sleep_ms : Nat),
      (snor_wait_ready_model sr sleep_ms = 0 ↔
        ∃ d, d < (sleep_ms + 1) * 1000
          ∧ (∀ e, e < d → ∃ v, sr e = some v ∧ v &&& 0x23 ≠ 0)
          ∧ (∃ v, sr d = some v ∧ v &&& 0x23 = 0))
      ∧ (snor_wait_ready_model sr sleep_ms = 0
          ∨ snor_wait_ready_model sr sleep_ms = -1) := by
  intro sr sleep_ms
  have h := waitReadyGo_spec sr ((sleep_ms + 1) * 1000) 0
  unfold snor_wait_ready_model
  constructor
  · rw [h.1]
    constructor
    · intro hh
      rcases hh with ⟨d, hd, hbusy, w, hw, hwc⟩
      rw [Nat.zero_add] at hw
      refine ⟨d, hd, ?_, w, hw, hwc⟩
      intro e he
      have := hbusy e he
      rw [Nat.zero_add] at this
      exact this
    · intro hh
      rcases hh with ⟨d, hd, hbusy, w, hw, hwc⟩
      refine ⟨d, hd, ?_, w, by rw [Nat.zero_add]; exact hw, hwc⟩
      intro e he
      have := hbusy e he
      rw [Nat.zero_add]
      exact this
  · exact h.2

/-- Claim C8: snor_erase rejects length 0 with -1 before any command;
snor_read with length 0 returns 0 at once with no transaction; snor_write
with length 0 returns 0 at once; snor_write past the capacity returns -1
with no page program issued. -/
theorem claim_c8_zero_length_and_bounds :
    (∀ (fuel : Nat) (chip : ChipInfo) (offs : Nat),
        snor_erase_model fuel chip offs 0 = (some (-1), []))
    ∧ (∀ (chip : ChipInfo) (src : Nat), snor_read_model chip src 0 = (0, []))
    ∧ (∀ (tr : Nat → Bool) (chip : ChipInfo) (dst : Nat),
        snor_write_model tr chip dst 0 = (0, []))
    ∧ (∀ (tr : Nat → Bool) (chip : ChipInfo) (dst len : Nat),
        0 < len → dst + len < 2^64 →
        chip.sector_size * chip.n_sectors < dst + len →
        snor_write_model tr chip dst len = (-1, [])) := by
  refine ⟨?_, ?_, ?_, ?_⟩
  · intro fuel chip offs
    rfl
  · intro chip src
    rfl
  · intro tr chip dst
    rfl
  · intro tr chip dst len h1 h2 h3
    unfold snor_write_model
    rw [if_neg (by omega), if_pos (by rw [Nat.mod_eq_of_lt h2]; omega)]

/-- Witness for claim C8: writing one byte at 2^24 (= capacity of
W25Q128BV) trips the bounds check: -1, nothing issued. -/
theorem claim_c8_witness :
    ((0:Nat) < 1 ∧ (16777216 + 1 : Nat) < 2^64
      ∧ W25Q128BV.sector_size * W25Q128BV.n_sectors < 16777216 + 1)
    ∧ snor_write_model (fun _ => true) W25Q128BV 16777216 1 = (-1, []) :=
  ⟨⟨by decide, by decide, by decide⟩,
    claim_c8_zero_length_and_bounds.2.2.2 (fun _ => true) W25Q128BV 16777216 1
      (by decide) (by decide) (by decide)⟩

/-- Witness for claim C9: a status register that reads busy (1) for the
first three polls and then clear makes wait_ready succeed. -/
theorem claim_c9_witness :
    snor_wait_ready_model (fun j => some (if j < 3 then 1 else 0)) 1 = 0 :=
  (claim_c9_wait_ready (fun j => some (if j < 3 then 1 else 0)) 1).1.mpr
    ⟨3, by omega,
      by
        intro e he
        exact ⟨1, by simp [he], by decide⟩,
      0, by simp, by decide⟩
